import Mathlib

/-!
Shallow embedding of the minisource/ticket lifecycle engine
(internal/usecase: TicketUsecase and AdminUsecase; internal/repository:
ticket/agent/department/SLA/history repositories).

Modelling conventions:
* Mongo ObjectIDs are `Nat`; `primitive.ObjectIDFromHex` is `parseOID`
  (24 hex characters).  Call sites that ignore the parse error
  (`id, _ := ObjectIDFromHex(s)`) use the zero ObjectID on failure, which
  is modelled by `oidOfUser` returning `(parseOID s).getD 0`; an update
  keyed on an ObjectID that matches no stored document is a no-op, exactly
  as in Mongo.
* Wall-clock time is a `Nat` of Unix seconds supplied by the caller
  (`now`); `time.Duration` additions become second arithmetic.
* The persistent store is a `State` of association lists keyed by
  ObjectID.  Store calls never fail (the network-failure paths of the Go
  repositories are out of scope), so a usecase that returns a Go `error`
  before its first write is modelled as `Except.error` with no new state.
* `float64` (agent average rating) is modelled as `Rat`.
* Fields no verified property reads (attachments, IP/user-agent strings,
  metadata, watchers, escalation and SLA-breach flags, business hours)
  are omitted from the records; every field an embedded operation reads
  or writes is present.
* Go `map[string]interface{}` values are modelled as `List (String ×
  String)`; history old/new `interface{}` values as `String`.
-/

namespace Ticketing

/-- Ticket statuses, from `models.TicketStatus` (internal/models/ticket.go). -/
inductive TicketStatus where
  | StatusOpen
  | StatusInProgress
  | StatusPending
  | StatusOnHold
  | StatusResolved
  | StatusClosed
  | StatusReopened
  | StatusEscalated
  | StatusCancelled
deriving Repr, DecidableEq

/-- Ticket priorities, from `models.TicketPriority`. -/
inductive TicketPriority where
  | PriorityLow
  | PriorityMedium
  | PriorityHigh
  | PriorityUrgent
  | PriorityCritical
deriving Repr, DecidableEq

/-- Agent statuses, from `models.AgentStatus`. -/
inductive AgentStatus where
  | AgentAvailable
  | AgentBusy
  | AgentAway
  | AgentOffline
  | AgentOnBreak
deriving Repr, DecidableEq

/-- Message sender types, from `models.SenderType`. -/
inductive SenderType where
  | SenderCustomer
  | SenderAgent
  | SenderSystem
deriving Repr, DecidableEq

open TicketStatus TicketPriority AgentStatus SenderType

/-- The string form of a status (the Go constant values), used for
history old/new values. -/
def statusString : TicketStatus → String
  | StatusOpen => "open"
  | StatusInProgress => "in_progress"
  | StatusPending => "pending"
  | StatusOnHold => "on_hold"
  | StatusResolved => "resolved"
  | StatusClosed => "closed"
  | StatusReopened => "reopened"
  | StatusEscalated => "escalated"
  | StatusCancelled => "cancelled"

/-- The string form of a priority (the Go constant values). -/
def priorityString : TicketPriority → String
  | PriorityLow => "low"
  | PriorityMedium => "medium"
  | PriorityHigh => "high"
  | PriorityUrgent => "urgent"
  | PriorityCritical => "critical"

/-- Hex digit value, as accepted by `primitive.ObjectIDFromHex`. -/
def hexVal (c : Char) : Option Nat :=
  if '0' ≤ c ∧ c ≤ '9' then some (c.toNat - '0'.toNat)
  else if 'a' ≤ c ∧ c ≤ 'f' then some (c.toNat - 'a'.toNat + 10)
  else if 'A' ≤ c ∧ c ≤ 'F' then some (c.toNat - 'A'.toNat + 10)
  else none

/-- Accumulating hex decoder. -/
def parseHexAux : List Char → Nat → Option Nat
  | [], acc => some acc
  | c :: cs, acc =>
    match hexVal c with
    | some d => parseHexAux cs (acc * 16 + d)
    | none => none

/-- `primitive.ObjectIDFromHex`: a 24-character hex string decodes to an
ObjectID, anything else is a parse error. -/
def parseOID (str : String) : Option Nat :=
  if str.length = 24 then parseHexAux str.data 0 else none

/-- The ObjectID used by call sites that ignore the parse error
(`agentID, _ := primitive.ObjectIDFromHex(ticket.AssignedToID)`): the
parse result, or the zero ObjectID on failure. -/
def oidOfUser (str : String) : Nat :=
  (parseOID str).getD 0

/-- One hex digit character (lower case, as `primitive.ObjectID.Hex`). -/
def hexChar (n : Nat) : Char :=
  if n < 10 then Char.ofNat ('0'.toNat + n)
  else Char.ofNat ('a'.toNat + (n - 10))

/-- `k` trailing hex digits of `n` (most significant first). -/
def hexDigits : Nat → Nat → List Char
  | 0, _ => []
  | k + 1, n => hexDigits k (n / 16) ++ [hexChar (n % 16)]

/-- `primitive.ObjectID.Hex`: the 24-hex-digit rendering of an ObjectID. -/
def toHex24 (n : Nat) : String :=
  String.mk (hexDigits 24 n)

/-- `fmt.Sprintf("TKT-%06d", seq)`: the tenant-scoped ticket number. -/
def formatTicketNumber (seq : Nat) : String :=
  let s := toString seq
  "TKT-" ++ String.mk (List.replicate (6 - s.length) '0') ++ s

/-- A ticket history entry (`models.TicketHistory`).  The repository
layer (`HistoryRepository`) exposes only `Create` and `GetByTicketID`. -/
structure TicketHistory where
  ticketID : Nat
  tenantID : String
  action : String
  field : String
  oldValue : String
  newValue : String
  changedBy : String
  changedByName : String
  comment : String
deriving Repr, DecidableEq

/-- A ticket message (`models.TicketMessage`), restricted to the fields
`AddReply` writes. -/
structure TicketMessage where
  ticketID : Nat
  tenantID : String
  mtype : String
  content : String
  senderType : SenderType
  senderID : String
  senderName : String
  senderEmail : String
  isPrivate : Bool
deriving Repr, DecidableEq

/-- A ticket (`models.Ticket`), restricted to the fields the lifecycle
engine reads or writes. -/
structure Ticket where
  tenantID : String
  ticketNumber : String
  subject : String
  description : String
  ttype : String
  status : TicketStatus
  priority : TicketPriority
  source : String
  customerID : String
  customerName : String
  customerEmail : String
  departmentID : Option Nat := none
  departmentName : String := ""
  categoryID : Option Nat := none
  categoryName : String := ""
  assignedToID : String := ""
  assignedToName : String := ""
  assignedToEmail : String := ""
  assignedAt : Option Nat := none
  assignedByID : String := ""
  slaPolicyID : Option Nat := none
  firstResponseDue : Option Nat := none
  resolutionDue : Option Nat := none
  firstResponsedAt : Option Nat := none
  resolvedAt : Option Nat := none
  closedAt : Option Nat := none
  ratedAt : Option Nat := none
  satisfactionRating : Option Nat := none
  satisfactionComment : String := ""
  reopenCount : Nat := 0
  messageCount : Nat := 0
  internalNotes : Nat := 0
  tags : List String := []
  ccEmails : List String := []
  customFields : List (String × String) := []
  lastActivityAt : Nat := 0
  lastCustomerReplyAt : Option Nat := none
  lastAgentReplyAt : Option Nat := none
  isDeleted : Bool := false
  deletedBy : String := ""
  deletedAt : Option Nat := none
  updatedAt : Nat := 0
deriving Repr, DecidableEq

/-- An agent (`models.Agent`), restricted to the fields the lifecycle
engine reads or writes.  Counters are `Int` so that the non-negativity
invariant is a genuine statement. -/
structure Agent where
  tenantID : String
  userID : String
  name : String
  email : String
  status : AgentStatus
  isActive : Bool := true
  departmentIDs : List Nat := []
  currentTickets : Int := 0
  maxTickets : Int := 20
  ticketsToday : Int := 0
  totalResolved : Int := 0
  avgRating : Rat := 0
  isDeleted : Bool := false
deriving Repr, DecidableEq

/-- A department (`models.Department`), restricted to the fields the
lifecycle engine reads or writes. -/
structure Department where
  tenantID : String
  name : String
  slaPolicyID : Option Nat := none
  openTickets : Int := 0
  totalTickets : Int := 0
  isDeleted : Bool := false
deriving Repr, DecidableEq

/-- A category (`models.Category`), restricted to resolution. -/
structure Category where
  tenantID : String
  name : String
  isDeleted : Bool := false
deriving Repr, DecidableEq

/-- A per-priority SLA target (`models.SLAPriority`). -/
structure SLAPriority where
  priority : TicketPriority
  firstResponseMins : Nat
  resolutionMins : Nat
deriving Repr, DecidableEq

/-- An SLA policy (`models.SLAPolicy`). -/
structure SLAPolicy where
  tenantID : String
  priorities : List SLAPriority
  isDefault : Bool := false
  isActive : Bool := true
deriving Repr, DecidableEq

/-- The configuration the engine reads (`config.Config`). -/
structure Config where
  slaEnabled : Bool := true
  defaultResponseHours : Nat := 24
  defaultResolveHours : Nat := 72
  autoAssignEnabled : Bool := false
deriving Repr, DecidableEq

/-- First association-list entry with the given key. -/
def findBy (k : Nat) : List (Nat × α) → Option α
  | [] => none
  | (k', a) :: t => if k' = k then some a else findBy k t

/-- Apply `f` to every association-list entry with the given key
(Mongo `UpdateOne` on a unique `_id`; a miss is a no-op). -/
def updBy (k : Nat) (f : α → α) (l : List (Nat × α)) : List (Nat × α) :=
  l.map (fun p => if p.1 = k then (p.1, f p.2) else p)

/-- The persistent store plus configuration.  `nextOID` feeds fresh
ObjectIDs for inserted tickets; `tenantSeq` is the per-tenant counter
collection behind `GetNextTicketNumber`. -/
structure State where
  tickets : List (Nat × Ticket) := []
  agents : List (Nat × Agent) := []
  departments : List (Nat × Department) := []
  categories : List (Nat × Category) := []
  slaPolicies : List (Nat × SLAPolicy) := []
  history : List TicketHistory := []
  messages : List TicketMessage := []
  tenantSeq : List (String × Nat) := []
  nextOID : Nat := 1
  config : Config := {}
deriving Repr, DecidableEq

/-- Typed rendering of the `errors.New` failures of the usecases, per
the spec's §7 taxonomy. -/
inductive TicketError where
  | validationError (msg : String)
  | invalidId (msg : String)
  | notFound (msg : String)
  | authorizationError
  | invalidTransition
  | invalidState
  | capacityError
deriving Repr, DecidableEq

/-! ## Repository layer

Each definition mirrors one repository method; the Mongo filters
(`is_deleted`, conditional counter guards) are reproduced exactly. -/

/-- `TicketRepository.GetByID`: filtered on `is_deleted: false`. -/
def ticketGetByID (s : State) (id : Nat) : Option Ticket :=
  match findBy id s.tickets with
  | some t => if t.isDeleted then none else some t
  | none => none

/-- `TicketRepository.Create`: insert with a fresh ObjectID; the
repository stamps `updated_at`. -/
def ticketCreate (s : State) (t : Ticket) (now : Nat) : State × Nat :=
  ({ s with tickets := s.tickets ++ [(s.nextOID, { t with updatedAt := now })],
            nextOID := s.nextOID + 1 }, s.nextOID)

/-- `TicketRepository.Update`: whole-document `$set`, stamping
`updated_at`. -/
def ticketUpdate (s : State) (id : Nat) (t : Ticket) (now : Nat) : State :=
  { s with tickets := updBy id (fun _ => { t with updatedAt := now }) s.tickets }

/-- `TicketRepository.UpdateFields`: a partial `$set` given as a ticket
transform; the repository always adds `updated_at`. -/
def ticketUpdateFields (s : State) (id : Nat) (f : Ticket → Ticket) (now : Nat) : State :=
  { s with tickets := updBy id (fun t => { f t with updatedAt := now }) s.tickets }

/-- `TicketRepository.Delete`: soft delete. -/
def ticketSoftDelete (s : State) (id : Nat) (deletedBy : String) (now : Nat) : State :=
  let f := fun t =>
    { t with isDeleted := true, deletedAt := some now,
             deletedBy := deletedBy, updatedAt := now }
  { s with tickets := updBy id f s.tickets }

/-- `TicketRepository.IncrementMessageCount`: note that for internal
notes the `$inc` document is overwritten, so only `internal_notes` is
incremented. -/
def ticketIncrementMessageCount (s : State) (id : Nat) (isInternal : Bool) (now : Nat) : State :=
  let f := fun t =>
    if isInternal then
      { t with internalNotes := t.internalNotes + 1,
               lastActivityAt := now, updatedAt := now }
    else
      { t with messageCount := t.messageCount + 1,
               lastActivityAt := now, updatedAt := now }
  { s with tickets := updBy id f s.tickets }

/-- `TicketRepository.GetNextTicketNumber`: atomic upsert-increment of
the tenant's sequence, formatted `TKT-%06d`. -/
def getNextTicketNumber (s : State) (tenantID : String) : State × String :=
  let cur := ((s.tenantSeq.find? (fun p => decide (p.1 = tenantID))).map Prod.snd).getD 0
  let next := cur + 1
  let seqs :=
    if s.tenantSeq.any (fun p => decide (p.1 = tenantID)) then
      s.tenantSeq.map (fun p => if p.1 = tenantID then (p.1, next) else p)
    else
      s.tenantSeq ++ [(tenantID, next)]
  ({ s with tenantSeq := seqs }, formatTicketNumber next)

/-- `AgentRepository.GetByID`: filtered on `is_deleted: false`. -/
def agentGetByID (s : State) (id : Nat) : Option Agent :=
  match findBy id s.agents with
  | some a => if a.isDeleted then none else some a
  | none => none

/-- `AgentRepository.GetByUserID`: tenant-scoped lookup by external user
id, filtered on `is_deleted: false`; returns the document id as well. -/
def agentGetByUserID (s : State) (tenantID userID : String) : Option (Nat × Agent) :=
  s.agents.find? (fun p =>
    decide (p.2.tenantID = tenantID ∧ p.2.userID = userID ∧ p.2.isDeleted = false))

/-- `AgentRepository.IncrementTicketCount`: `$inc current_tickets` and
`tickets_today`. -/
def agentIncTicketCount (s : State) (id : Nat) (now : Nat) : State :=
  let f := fun a =>
    { a with currentTickets := a.currentTickets + 1,
             ticketsToday := a.ticketsToday + 1 }
  { s with agents := updBy id f s.agents }

/-- `AgentRepository.DecrementTicketCount`: the update filter requires
`current_tickets > 0`, so the decrement is a no-op at zero. -/
def agentDecTicketCount (s : State) (id : Nat) (now : Nat) : State :=
  let f := fun a =>
    if a.currentTickets > 0 then { a with currentTickets := a.currentTickets - 1 } else a
  { s with agents := updBy id f s.agents }

/-- `AgentRepository.IncrementResolved`. -/
def agentIncResolved (s : State) (id : Nat) (now : Nat) : State :=
  { s with agents :=
      updBy id (fun a => { a with totalResolved := a.totalResolved + 1 }) s.agents }

/-- `AgentRepository.Update` as used by `RateTicket`: rewrites the
document; only `avg_rating` differs there. -/
def agentSetAvgRating (s : State) (id : Nat) (r : Rat) : State :=
  { s with agents := updBy id (fun a => { a with avgRating := r }) s.agents }

/-- `AgentRepository.GetAvailable` followed by taking the least busy
agent: active, available, under capacity, optionally in the department.
Mongo returns them sorted ascending by `current_tickets`; the fold picks
the first minimum, which models taking index 0 of that sort. -/
def pickLeastBusy (s : State) (tenantID : String) (departmentID : Option Nat) :
    Option (Nat × Agent) :=
  let candidates := s.agents.filter (fun p =>
    decide (p.2.tenantID = tenantID ∧ p.2.isDeleted = false ∧ p.2.isActive = true ∧
      p.2.status = AgentAvailable ∧ p.2.currentTickets < p.2.maxTickets ∧
      departmentID.all (fun d => p.2.departmentIDs.contains d) = true))
  candidates.foldl
    (fun best p =>
      match best with
      | none => some p
      | some q => if p.2.currentTickets < q.2.currentTickets then some p else some q)
    none

/-- `DepartmentRepository.GetByID`: filtered on `is_deleted: false`. -/
def deptGetByID (s : State) (id : Nat) : Option Department :=
  match findBy id s.departments with
  | some d => if d.isDeleted then none else some d
  | none => none

/-- `DepartmentRepository.IncrementTicketCount`: `$inc total_tickets`,
plus `open_tickets` when `isOpen`. -/
def deptIncTicketCount (s : State) (id : Nat) (isOpen : Bool) (now : Nat) : State :=
  let f := fun d =>
    { d with totalTickets := d.totalTickets + 1,
             openTickets := if isOpen then d.openTickets + 1 else d.openTickets }
  { s with departments := updBy id f s.departments }

/-- `DepartmentRepository.DecrementOpenTickets`: the update filter
requires `open_tickets > 0`, so the decrement is a no-op at zero. -/
def deptDecOpenTickets (s : State) (id : Nat) (now : Nat) : State :=
  let f := fun d =>
    if d.openTickets > 0 then { d with openTickets := d.openTickets - 1 } else d
  { s with departments := updBy id f s.departments }

/-- `CategoryRepository.GetByID`: filtered on `is_deleted: false`. -/
def catGetByID (s : State) (id : Nat) : Option Category :=
  match findBy id s.categories with
  | some c => if c.isDeleted then none else some c
  | none => none

/-- `SLAPolicyRepository.GetByID` (no deleted filter in the source). -/
def slaGetByID (s : State) (id : Nat) : Option SLAPolicy :=
  findBy id s.slaPolicies

/-- `SLAPolicyRepository.GetDefault`: the tenant's active default
policy, with its document id. -/
def slaGetDefault (s : State) (tenantID : String) : Option (Nat × SLAPolicy) :=
  s.slaPolicies.find? (fun p =>
    decide (p.2.tenantID = tenantID ∧ p.2.isDefault = true ∧ p.2.isActive = true))

/-- `HistoryRepository.Create`: append-only. -/
def historyAdd (s : State) (h : TicketHistory) : State :=
  { s with history := s.history ++ [h] }

/-- `MessageRepository.Create`. -/
def messageAdd (s : State) (m : TicketMessage) : State :=
  { s with messages := s.messages ++ [m] }

/-- `TicketUsecase.createHistory` (part_004): builds and persists one
history entry; the store call's error is discarded. -/
def createHistory (s : State) (ticketID : Nat) (tenantID action field oldValue newValue
    changedBy changedByName comment : String) : State :=
  historyAdd s
    { ticketID := ticketID, tenantID := tenantID, action := action, field := field,
      oldValue := oldValue, newValue := newValue, changedBy := changedBy,
      changedByName := changedByName, comment := comment }

/-! ## Request DTOs (models/ticket.go)

Go's `*T` optional fields become `Option`; a Go string field whose empty
value means "unset" stays a `String`. -/

/-- `models.CreateTicketRequest`. -/
structure CreateTicketRequest where
  tenantID : String
  subject : String
  description : String
  ttype : String := ""
  priority : Option TicketPriority := none
  source : String := ""
  departmentID : String := ""
  categoryID : String := ""
  tags : List String := []
  customFields : List (String × String) := []
  ccEmails : List String := []
deriving Repr, DecidableEq

/-- `models.UpdateTicketRequest`. -/
structure UpdateTicketRequest where
  subject : Option String := none
  description : Option String := none
  ttype : Option String := none
  priority : Option TicketPriority := none
  departmentID : Option String := none
  categoryID : Option String := none
  tags : Option (List String) := none
  ccEmails : Option (List String) := none
  customFields : Option (List (String × String)) := none
deriving Repr, DecidableEq

/-- `models.ChangeStatusRequest`. -/
structure ChangeStatusRequest where
  status : TicketStatus
  comment : String := ""
deriving Repr, DecidableEq

/-- `models.AssignTicketRequest`. -/
structure AssignTicketRequest where
  assigneeID : String
  comment : String := ""
deriving Repr, DecidableEq

/-- `models.TransferTicketRequest`. -/
structure TransferTicketRequest where
  departmentID : String
  assigneeID : String := ""
  comment : String := ""
deriving Repr, DecidableEq

/-- `models.CreateMessageRequest` (fields `AddReply` reads). -/
structure CreateMessageRequest where
  mtype : String := ""
  content : String := ""
  isPrivate : Bool := false
deriving Repr, DecidableEq

/-- `models.RateTicketRequest`. -/
structure RateTicketRequest where
  rating : Nat
  comment : String := ""
deriving Repr, DecidableEq

/-! ## TicketUsecase (part_004) -/

/-- The policy-resolution block at the head of
`TicketUsecase.calculateSLA`: the department's policy if the department
and its policy resolve, otherwise the tenant's default policy. -/
def resolvedPolicy (s : State) (t : Ticket) : Option (Nat × SLAPolicy) :=
  let deptPolicy :=
    match t.departmentID with
    | some d =>
      match deptGetByID s d with
      | some dept =>
        match dept.slaPolicyID with
        | some pid => (slaGetByID s pid).map (fun p => (pid, p))
        | none => none
      | none => none
    | none => none
  match deptPolicy with
  | some pp => some pp
  | none => slaGetDefault s t.tenantID

/-- `TicketUsecase.calculateSLA`: no-op when SLA support is disabled;
config-default hour offsets when no policy resolves; otherwise the first
priority entry matching the ticket's priority sets the due dates and the
policy reference, and a policy without a matching entry sets nothing. -/
def calculateSLA (s : State) (t : Ticket) (now : Nat) : Ticket :=
  if s.config.slaEnabled = false then t
  else
    match resolvedPolicy s t with
    | none =>
      { t with firstResponseDue := some (now + s.config.defaultResponseHours * 3600),
               resolutionDue := some (now + s.config.defaultResolveHours * 3600) }
    | some (pid, policy) =>
      match policy.priorities.find? (fun p => p.priority == t.priority) with
      | some p =>
        { t with firstResponseDue := some (now + p.firstResponseMins * 60),
                 resolutionDue := some (now + p.resolutionMins * 60),
                 slaPolicyID := some pid }
      | none => t

/-- `TicketUsecase.isValidStatusTransition`: agents may make any
transition; customers only resolved→reopened/closed, pending→open,
open→cancelled. -/
def isValidStatusTransition (src dst : TicketStatus) (isAgent : Bool) : Bool :=
  if isAgent then true
  else
    match src with
    | StatusResolved => dst == StatusReopened || dst == StatusClosed
    | StatusPending => dst == StatusOpen
    | StatusOpen => dst == StatusCancelled
    | _ => false

/-- `TicketUsecase.GetTicket`: parse the id, then fetch (soft-deleted
tickets are invisible). -/
def GetTicket (s : State) (id : String) : Except TicketError (Nat × Ticket) :=
  match parseOID id with
  | none => .error (.invalidId "invalid ticket ID")
  | some tid =>
    match ticketGetByID s tid with
    | none => .error (.notFound "ticket not found")
    | some t => .ok (tid, t)

/-- The `switch req.Status` block of `TicketUsecase.ChangeStatus`
(ticket's status already set to the new status, `oldStatus` the previous
one): timestamps plus the agent/department counter side effects. -/
def applyStatusSideEffects (s : State) (t : Ticket) (oldStatus : TicketStatus) (now : Nat) :
    State × Ticket :=
  match t.status with
  | StatusResolved =>
    let t := { t with resolvedAt := some now }
    let s :=
      if t.assignedToID ≠ "" then
        let aid := oidOfUser t.assignedToID
        agentDecTicketCount (agentIncResolved s aid now) aid now
      else s
    let s :=
      match t.departmentID with
      | some d => deptDecOpenTickets s d now
      | none => s
    (s, t)
  | StatusClosed =>
    let t := { t with closedAt := some now }
    if oldStatus ≠ StatusResolved then
      let s :=
        if t.assignedToID ≠ "" then agentDecTicketCount s (oidOfUser t.assignedToID) now
        else s
      let s :=
        match t.departmentID with
        | some d => deptDecOpenTickets s d now
        | none => s
      (s, t)
    else (s, t)
  | StatusReopened =>
    let t := { t with resolvedAt := none, closedAt := none, reopenCount := t.reopenCount + 1 }
    let s :=
      match t.departmentID with
      | some d => deptIncTicketCount s d true now
      | none => s
    (s, t)
  | _ => (s, t)

/-- `TicketUsecase.ChangeStatus`: transition validation, side effects,
ticket update, one `status_changed` history entry. -/
def ChangeStatus (s : State) (id : String) (req : ChangeStatusRequest)
    (userID userName : String) (isAgent : Bool) (now : Nat) :
    Except TicketError (State × Ticket) :=
  match GetTicket s id with
  | .error e => .error e
  | .ok (tid, t) =>
    if isValidStatusTransition t.status req.status isAgent = false then
      .error .invalidTransition
    else
      let oldStatus := t.status
      let t := { t with status := req.status, lastActivityAt := now }
      let p := applyStatusSideEffects s t oldStatus now
      let s := ticketUpdate p.1 tid p.2 now
      let s := createHistory s tid t.tenantID "status_changed" "status"
                 (statusString oldStatus) (statusString req.status) userID userName req.comment
      .ok (s, t)

/-- `TicketUsecase.AssignTicket`: agent lookup by user id, capacity
check, decrement of the previous assignee (keyed by the parse of the
stored user id), assignment stamps, lazy SLA, open→in_progress
promotion, increment of the new agent, one `assigned` history entry. -/
def AssignTicket (s : State) (id : String) (req : AssignTicketRequest)
    (assignedByID assignedByName : String) (now : Nat) :
    Except TicketError (State × Ticket) :=
  match GetTicket s id with
  | .error e => .error e
  | .ok (tid, t) =>
    match agentGetByUserID s t.tenantID req.assigneeID with
    | none => .error (.notFound "agent not found")
    | some (aid, agent) =>
      if agent.currentTickets ≥ agent.maxTickets then .error .capacityError
      else
        let s :=
          if t.assignedToID ≠ "" then agentDecTicketCount s (oidOfUser t.assignedToID) now
          else s
        let oldAssignee := t.assignedToName
        let t := { t with assignedToID := agent.userID, assignedToName := agent.name,
                          assignedToEmail := agent.email, assignedAt := some now,
                          assignedByID := assignedByID, lastActivityAt := now }
        let t := if t.firstResponseDue = none then calculateSLA s t now else t
        let t := if t.status = StatusOpen then { t with status := StatusInProgress } else t
        let s := ticketUpdate s tid t now
        let s := agentIncTicketCount s aid now
        let s := createHistory s tid t.tenantID "assigned" "assignee" oldAssignee agent.name
                   assignedByID assignedByName req.comment
        .ok (s, t)

/-- `TicketUsecase.autoAssign`: silent no-op when no agent qualifies;
otherwise stamp the least busy agent onto the ticket, update it,
increment the agent and write an `auto_assigned` history entry
attributed to the system actor. -/
def autoAssign (s : State) (tid : Nat) (t : Ticket) (now : Nat) : State × Ticket :=
  match pickLeastBusy s t.tenantID t.departmentID with
  | none => (s, t)
  | some (aid, agent) =>
    let t := { t with assignedToID := agent.userID, assignedToName := agent.name,
                      assignedToEmail := agent.email, assignedAt := some now }
    let s := ticketUpdate s tid t now
    let s := agentIncTicketCount s aid now
    let s := createHistory s tid t.tenantID "auto_assigned" "assignee" "" agent.name
               "system" "System" ""
    (s, t)

/-- The tail of `TicketUsecase.TransferTicket` after the `transferred`
history entry: chain into `AssignTicket` when an explicit assignee was
given (result discarded, so an assignment failure leaves the transfer
result intact and the returned ticket is the cleared one), else into
`autoAssign` when auto-assignment is enabled. -/
def transferChain (s : State) (id : String) (req : TransferTicketRequest)
    (userID userName : String) (tid : Nat) (t : Ticket) (now : Nat) : State × Ticket :=
  if req.assigneeID ≠ "" then
    match AssignTicket s id { assigneeID := req.assigneeID } userID userName now with
    | .ok (s', _) => (s', t)
    | .error _ => (s, t)
  else if s.config.autoAssignEnabled then
    autoAssign s tid t now
  else
    (s, t)

/-- `TicketUsecase.TransferTicket`: resolve the target department,
decrement the old department's open counter and the old assignee
unconditionally, clear assignment, set the new department and increment
its counters, write a `transferred` history entry, then chain into
`AssignTicket` (result discarded) or `autoAssign`. -/
def TransferTicket (s : State) (id : String) (req : TransferTicketRequest)
    (userID userName : String) (now : Nat) : Except TicketError (State × Ticket) :=
  match GetTicket s id with
  | .error e => .error e
  | .ok (tid, t) =>
    match parseOID req.departmentID with
    | none => .error (.invalidId "invalid department ID")
    | some deptID =>
      match deptGetByID s deptID with
      | none => .error (.notFound "department not found")
      | some dept =>
        let oldDept := t.departmentName
        let s :=
          match t.departmentID with
          | some od => deptDecOpenTickets s od now
          | none => s
        let s :=
          if t.assignedToID ≠ "" then agentDecTicketCount s (oidOfUser t.assignedToID) now
          else s
        let t := { t with departmentID := some deptID, departmentName := dept.name,
                          assignedToID := "", assignedToName := "", assignedToEmail := "",
                          assignedAt := none, lastActivityAt := now }
        let s := deptIncTicketCount s deptID true now
        let s := ticketUpdate s tid t now
        let s := createHistory s tid t.tenantID "transferred" "department" oldDept dept.name
                   userID userName req.comment
        let p := transferChain s id req userID userName tid t now
        .ok (p.1, p.2)

/-- The ticket value `CreateTicket` assembles before insertion:
defaults (priority medium, source web, type question), silent
department/category resolution, then SLA computation. -/
def buildNewTicket (s : State) (req : CreateTicketRequest)
    (customerID customerName customerEmail ticketNumber : String) (now : Nat) : Ticket :=
  let t : Ticket :=
    { tenantID := req.tenantID, ticketNumber := ticketNumber, subject := req.subject,
      description := req.description,
      ttype := if req.ttype = "" then "question" else req.ttype,
      status := StatusOpen, priority := req.priority.getD PriorityMedium,
      source := if req.source = "" then "web" else req.source,
      customerID := customerID, customerName := customerName,
      customerEmail := customerEmail, tags := req.tags,
      customFields := req.customFields, ccEmails := req.ccEmails, messageCount := 0 }
  let t :=
    if req.departmentID ≠ "" then
      match parseOID req.departmentID with
      | some d =>
        match deptGetByID s d with
        | some dept => { t with departmentID := some d, departmentName := dept.name }
        | none => t
      | none => t
    else t
  let t :=
    if req.categoryID ≠ "" then
      match parseOID req.categoryID with
      | some c =>
        match catGetByID s c with
        | some cat => { t with categoryID := some c, categoryName := cat.name }
        | none => t
      | none => t
    else t
  calculateSLA s t now

/-- `TicketUsecase.CreateTicket`: validation, ticket-number allocation,
ticket assembly (`buildNewTicket`), insert, department counters,
`created` history entry, optional auto-assignment. -/
def CreateTicket (s : State) (req : CreateTicketRequest)
    (customerID customerName customerEmail : String) (now : Nat) :
    Except TicketError (State × Nat × Ticket) :=
  if req.subject = "" then .error (.validationError "subject is required")
  else if req.description = "" then .error (.validationError "description is required")
  else
    let sN := getNextTicketNumber s req.tenantID
    let t := buildNewTicket sN.1 req customerID customerName customerEmail sN.2 now
    let sC := ticketCreate sN.1 t now
    let s2 :=
      match t.departmentID with
      | some d => deptIncTicketCount sC.1 d true now
      | none => sC.1
    let s3 := createHistory s2 sC.2 req.tenantID "created" "" "" "" customerID customerName ""
    if s3.config.autoAssignEnabled = true ∧ t.departmentID ≠ none then
      let p := autoAssign s3 sC.2 t now
      .ok (p.1, sC.2, p.2)
    else
      .ok (s3, sC.2, t)

/-- A tracked change of `UpdateTicket`: field name, old value, new
value (one per `changes[...]` assignment in the source). -/
abbrev Chg := String × String × String

/-- The `req.Subject` block of `UpdateTicket`. -/
def updStepSubject (t : Ticket) (v? : Option String) : Ticket × List Chg :=
  match v? with
  | some v =>
    if v ≠ t.subject then ({ t with subject := v }, [("subject", t.subject, v)])
    else (t, [])
  | none => (t, [])

/-- The `req.Description` block of `UpdateTicket`. -/
def updStepDescription (t : Ticket) (v? : Option String) : Ticket × List Chg :=
  match v? with
  | some v =>
    if v ≠ t.description then
      ({ t with description := v }, [("description", t.description, v)])
    else (t, [])
  | none => (t, [])

/-- The `req.Type` block of `UpdateTicket`. -/
def updStepType (t : Ticket) (v? : Option String) : Ticket × List Chg :=
  match v? with
  | some v =>
    if v ≠ t.ttype then ({ t with ttype := v }, [("type", t.ttype, v)])
    else (t, [])
  | none => (t, [])

/-- The `req.Priority` block of `UpdateTicket`: a changed priority also
recomputes the SLA. -/
def updStepPriority (s : State) (now : Nat) (t : Ticket) (v? : Option TicketPriority) :
    Ticket × List Chg :=
  match v? with
  | some v =>
    if v ≠ t.priority then
      (calculateSLA s { t with priority := v } now,
       [("priority", priorityString t.priority, priorityString v)])
    else (t, [])
  | none => (t, [])

/-- The `req.DepartmentID` block of `UpdateTicket`: silently ignored
unless the id parses and resolves; a change is recorded only when the
resolved id differs from the current one. -/
def updStepDepartment (s : State) (t : Ticket) (v? : Option String) : Ticket × List Chg :=
  match v? with
  | some str =>
    match parseOID str with
    | some d =>
      match deptGetByID s d with
      | some dept =>
        if t.departmentID ≠ some d then
          ({ t with departmentID := some d, departmentName := dept.name },
           [("department", t.departmentName, dept.name)])
        else (t, [])
      | none => (t, [])
    | none => (t, [])
  | none => (t, [])

/-- The `req.CategoryID` block of `UpdateTicket`: silently ignored
unless the id parses and resolves, but — unlike the department block —
the source records a change whenever the category resolves, without
comparing it to the current value. -/
def updStepCategory (s : State) (t : Ticket) (v? : Option String) : Ticket × List Chg :=
  match v? with
  | some str =>
    match parseOID str with
    | some c =>
      match catGetByID s c with
      | some cat =>
        ({ t with categoryID := some c, categoryName := cat.name },
         [("category", t.categoryName, cat.name)])
      | none => (t, [])
    | none => (t, [])
  | none => (t, [])

/-- The `req.Tags`/`req.CCEmails`/`req.CustomFields` blocks of
`UpdateTicket`: applied when present, never tracked in `changes`. -/
def updApplyRest (t : Ticket) (req : UpdateTicketRequest) : Ticket :=
  let t := match req.tags with | some v => { t with tags := v } | none => t
  let t := match req.ccEmails with | some v => { t with ccEmails := v } | none => t
  match req.customFields with | some v => { t with customFields := v } | none => t

/-- `TicketUsecase.UpdateTicket`: per-field patch with change tracking.
Go accumulates the changes in a map and then iterates it (unspecified
order); this embedding writes the history entries in the order of the
field blocks in the source. -/
def UpdateTicket (s : State) (id : String) (req : UpdateTicketRequest)
    (userID userName : String) (isAgent : Bool) (now : Nat) :
    Except TicketError (State × Ticket) :=
  match GetTicket s id with
  | .error e => .error e
  | .ok (tid, t0) =>
    if isAgent = false ∧ t0.customerID ≠ userID then .error .authorizationError
    else
      let p1 := updStepSubject t0 req.subject
      let p2 := updStepDescription p1.1 req.description
      let p3 := updStepType p2.1 req.ttype
      let p4 := updStepPriority s now p3.1 req.priority
      let p5 := updStepDepartment s p4.1 req.departmentID
      let p6 := updStepCategory s p5.1 req.categoryID
      let changes := p1.2 ++ p2.2 ++ p3.2 ++ p4.2 ++ p5.2 ++ p6.2
      let t := updApplyRest p6.1 req
      let s := ticketUpdate s tid t now
      let s := changes.foldl
        (fun s ch => createHistory s tid t.tenantID "updated" ch.1 ch.2.1 ch.2.2
                       userID userName "")
        s
      .ok (s, t)

/-- `TicketUsecase.AddReply`: message type selection (private forces
`internal_note`), message insert, message-count increment, and the
activity/first-response field updates.  No history entry is written. -/
def AddReply (s : State) (ticketID : String) (req : CreateMessageRequest)
    (senderID senderName senderEmail : String) (senderType : SenderType) (now : Nat) :
    Except TicketError (State × TicketMessage) :=
  match GetTicket s ticketID with
  | .error e => .error e
  | .ok (tid, t) =>
    let msgType :=
      if req.isPrivate then "internal_note"
      else if req.mtype ≠ "" then req.mtype
      else "reply"
    let m : TicketMessage :=
      { ticketID := tid, tenantID := t.tenantID, mtype := msgType, content := req.content,
        senderType := senderType, senderID := senderID, senderName := senderName,
        senderEmail := senderEmail, isPrivate := req.isPrivate }
    let s := messageAdd s m
    let s := ticketIncrementMessageCount s tid req.isPrivate now
    let f : Ticket → Ticket := fun tk =>
      let tk := { tk with lastActivityAt := now }
      if senderType = SenderCustomer then
        let tk := { tk with lastCustomerReplyAt := some now }
        if t.status = StatusPending then { tk with status := StatusOpen } else tk
      else if senderType = SenderAgent ∧ req.isPrivate = false then
        let tk := { tk with lastAgentReplyAt := some now }
        if t.firstResponsedAt = none then { tk with firstResponsedAt := some now } else tk
      else tk
    let s := ticketUpdateFields s tid f now
    .ok (s, m)

/-- `TicketUsecase.RateTicket`: owner-only, resolved/closed-only; stores
the rating and updates the assigned agent's running average (`Rat` in
place of `float64`; at `totalResolved = 0` Go produces a float division
by zero where `Rat` yields 0 — no claim reads the value there).  No
history entry is written. -/
def RateTicket (s : State) (id : String) (req : RateTicketRequest) (userID : String)
    (now : Nat) : Except TicketError (State × Ticket) :=
  match GetTicket s id with
  | .error e => .error e
  | .ok (tid, t) =>
    if t.customerID ≠ userID then .error .authorizationError
    else if t.status ≠ StatusResolved ∧ t.status ≠ StatusClosed then .error .invalidState
    else
      let t := { t with satisfactionRating := some req.rating,
                        satisfactionComment := req.comment, ratedAt := some now }
      let s := ticketUpdate s tid t now
      let s :=
        if t.assignedToID ≠ "" then
          let aid := oidOfUser t.assignedToID
          match agentGetByID s aid with
          | some agent =>
            let newAvg : Rat := (agent.avgRating * ((agent.totalResolved : Rat) - 1)
                + (req.rating : Rat)) / (agent.totalResolved : Rat)
            agentSetAvgRating s aid newAvg
          | none => s
        else s
      .ok (s, t)

/-- `TicketUsecase.DeleteTicket`: decrement the assignee's count, then
the department's open counter unless the ticket is closed/resolved, then
soft-delete.  No history entry is written. -/
def DeleteTicket (s : State) (id : String) (deletedBy : String) (now : Nat) :
    Except TicketError State :=
  match GetTicket s id with
  | .error e => .error e
  | .ok (tid, t) =>
    let s :=
      if t.assignedToID ≠ "" then agentDecTicketCount s (oidOfUser t.assignedToID) now
      else s
    let s :=
      match t.departmentID with
      | some d =>
        if t.status ≠ StatusClosed ∧ t.status ≠ StatusResolved then deptDecOpenTickets s d now
        else s
      | none => s
    .ok (ticketSoftDelete s tid deletedBy now)

/-! ## AdminUsecase bulk operations (part_005)

Each loop body is a structural recursion over the id list with the
running success count; an id that fails to parse or fetch is skipped.
Only `BulkDeleteTickets` compares the ticket's tenant to the caller's. -/

/-- Loop body of `AdminUsecase.BulkAssignTickets`: assignment fields via
`UpdateFields` (old assignee never decremented, no capacity re-check),
an `assigned` history entry with the old/new user ids, and an increment
of the target agent. -/
def bulkAssignGo (s : State) (ids : List String) (aid : Nat) (agent : Agent)
    (changedBy changedByName : String) (now : Nat) (count : Nat) : State × Nat :=
  match ids with
  | [] => (s, count)
  | idStr :: rest =>
    match parseOID idStr with
    | none => bulkAssignGo s rest aid agent changedBy changedByName now count
    | some tid =>
      match ticketGetByID s tid with
      | none => bulkAssignGo s rest aid agent changedBy changedByName now count
      | some t =>
        let oldAssignee := t.assignedToID
        let f : Ticket → Ticket := fun tk =>
          let tk := { tk with assignedToID := agent.userID, assignedToName := agent.name,
                              assignedAt := some now }
          if t.status = StatusOpen then { tk with status := StatusInProgress } else tk
        let s := ticketUpdateFields s tid f now
        let s := historyAdd s
          { ticketID := tid, tenantID := t.tenantID, action := "assigned", field := "",
            oldValue := oldAssignee, newValue := agent.userID, changedBy := changedBy,
            changedByName := changedByName, comment := "" }
        let s := agentIncTicketCount s aid now
        bulkAssignGo s rest aid agent changedBy changedByName now (count + 1)

/-- `AdminUsecase.BulkAssignTickets`: resolve the target agent once,
then run the loop.  The tenant argument is used only for that lookup. -/
def BulkAssignTickets (s : State) (tenantID : String) (ticketIDs : List String)
    (agentID changedBy changedByName : String) (now : Nat) :
    Except TicketError (State × Nat) :=
  match agentGetByUserID s tenantID agentID with
  | none => .error (.notFound "agent not found")
  | some (aid, agent) => .ok (bulkAssignGo s ticketIDs aid agent changedBy changedByName now 0)

/-- Loop body of `AdminUsecase.BulkChangeStatus`: sets the status (and
`resolved_at` for resolved or closed) via `UpdateFields`, writes a
`status_changed` history entry.  No transition validation, no tenant
check, no counter updates. -/
def bulkStatusGo (s : State) (ids : List String) (status : TicketStatus)
    (changedBy changedByName : String) (now : Nat) (count : Nat) : State × Nat :=
  match ids with
  | [] => (s, count)
  | idStr :: rest =>
    match parseOID idStr with
    | none => bulkStatusGo s rest status changedBy changedByName now count
    | some tid =>
      match ticketGetByID s tid with
      | none => bulkStatusGo s rest status changedBy changedByName now count
      | some t =>
        let f : Ticket → Ticket := fun tk =>
          let tk := { tk with status := status }
          if status = StatusResolved ∨ status = StatusClosed then
            { tk with resolvedAt := some now }
          else tk
        let s := ticketUpdateFields s tid f now
        let s := historyAdd s
          { ticketID := tid, tenantID := t.tenantID, action := "status_changed", field := "",
            oldValue := statusString t.status, newValue := statusString status,
            changedBy := changedBy, changedByName := changedByName, comment := "" }
        bulkStatusGo s rest status changedBy changedByName now (count + 1)

/-- `AdminUsecase.BulkChangeStatus`.  The tenant argument is unused in
the source. -/
def BulkChangeStatus (s : State) (tenantID : String) (ticketIDs : List String)
    (status : TicketStatus) (changedBy changedByName : String) (now : Nat) : State × Nat :=
  bulkStatusGo s ticketIDs status changedBy changedByName now 0

/-- Loop body of `AdminUsecase.BulkChangePriority`: sets the priority
via `UpdateFields` and writes a `priority_changed` history entry.  No
tenant check, no counter updates, no SLA recomputation. -/
def bulkPriorityGo (s : State) (ids : List String) (priority : TicketPriority)
    (changedBy changedByName : String) (now : Nat) (count : Nat) : State × Nat :=
  match ids with
  | [] => (s, count)
  | idStr :: rest =>
    match parseOID idStr with
    | none => bulkPriorityGo s rest priority changedBy changedByName now count
    | some tid =>
      match ticketGetByID s tid with
      | none => bulkPriorityGo s rest priority changedBy changedByName now count
      | some t =>
        let s := ticketUpdateFields s tid (fun tk => { tk with priority := priority }) now
        let s := historyAdd s
          { ticketID := tid, tenantID := t.tenantID, action := "priority_changed", field := "",
            oldValue := priorityString t.priority, newValue := priorityString priority,
            changedBy := changedBy, changedByName := changedByName, comment := "" }
        bulkPriorityGo s rest priority changedBy changedByName now (count + 1)

/-- `AdminUsecase.BulkChangePriority`.  The tenant argument is unused in
the source. -/
def BulkChangePriority (s : State) (tenantID : String) (ticketIDs : List String)
    (priority : TicketPriority) (changedBy changedByName : String) (now : Nat) : State × Nat :=
  bulkPriorityGo s ticketIDs priority changedBy changedByName now 0

/-- Loop body of `AdminUsecase.BulkTransferDepartment`: sets department
fields via `UpdateFields`, decrements the old department's open counter
(unconditionally, regardless of ticket status), increments the new
department's counters, writes a `transferred` history entry with hex
ids.  Assignment fields and agent counters are untouched. -/
def bulkTransferGo (s : State) (ids : List String) (deptID : Nat) (dept : Department)
    (changedBy changedByName : String) (now : Nat) (count : Nat) : State × Nat :=
  match ids with
  | [] => (s, count)
  | idStr :: rest =>
    match parseOID idStr with
    | none => bulkTransferGo s rest deptID dept changedBy changedByName now count
    | some tid =>
      match ticketGetByID s tid with
      | none => bulkTransferGo s rest deptID dept changedBy changedByName now count
      | some t =>
        let oldDeptID :=
          match t.departmentID with
          | some od => toHex24 od
          | none => ""
        let s := ticketUpdateFields s tid
          (fun tk => { tk with departmentID := some deptID, departmentName := dept.name }) now
        let s :=
          match t.departmentID with
          | some od => deptDecOpenTickets s od now
          | none => s
        let s := deptIncTicketCount s deptID true now
        let s := historyAdd s
          { ticketID := tid, tenantID := t.tenantID, action := "transferred", field := "",
            oldValue := oldDeptID, newValue := toHex24 deptID, changedBy := changedBy,
            changedByName := changedByName, comment := "" }
        bulkTransferGo s rest deptID dept changedBy changedByName now (count + 1)

/-- `AdminUsecase.BulkTransferDepartment`: resolve the target department
once, then run the loop.  The tenant argument is unused in the source. -/
def BulkTransferDepartment (s : State) (tenantID : String) (ticketIDs : List String)
    (departmentID changedBy changedByName : String) (now : Nat) :
    Except TicketError (State × Nat) :=
  match parseOID departmentID with
  | none => .error (.invalidId "invalid department ID")
  | some d =>
    match deptGetByID s d with
    | none => .error (.notFound "department not found")
    | some dept => .ok (bulkTransferGo s ticketIDs d dept changedBy changedByName now 0)

/-- Loop body of `AdminUsecase.BulkDeleteTickets`: skips ids with a
tenant mismatch, soft-deletes, decrements the department's open counter
(unconditionally, regardless of ticket status) and the assigned agent's
count (resolved through `GetByUserID`).  No history entry is written. -/
def bulkDeleteGo (s : State) (tenantID : String) (ids : List String) (now : Nat)
    (count : Nat) : State × Nat :=
  match ids with
  | [] => (s, count)
  | idStr :: rest =>
    match parseOID idStr with
    | none => bulkDeleteGo s tenantID rest now count
    | some tid =>
      match ticketGetByID s tid with
      | none => bulkDeleteGo s tenantID rest now count
      | some t =>
        if t.tenantID ≠ tenantID then bulkDeleteGo s tenantID rest now count
        else
          let s := ticketSoftDelete s tid "" now
          let s :=
            match t.departmentID with
            | some d => deptDecOpenTickets s d now
            | none => s
          let s :=
            if t.assignedToID ≠ "" then
              match agentGetByUserID s tenantID t.assignedToID with
              | some (aid, _) => agentDecTicketCount s aid now
              | none => s
            else s
          bulkDeleteGo s tenantID rest now (count + 1)

/-- `AdminUsecase.BulkDeleteTickets`. -/
def BulkDeleteTickets (s : State) (tenantID : String) (ticketIDs : List String)
    (now : Nat) : State × Nat :=
  bulkDeleteGo s tenantID ticketIDs now 0

/-! ## Operation sequences

A single sum type over every embedded engine operation, and a runner
that applies an operation to the store: a failing operation leaves the
store unchanged (every Go error return in the embedded usecases happens
before the first store write, store calls themselves being total
here). -/

/-- One invocation of an engine operation (arguments minus the store
and the clock). -/
inductive Op where
  | create (req : CreateTicketRequest) (customerID customerName customerEmail : String)
  | update (id : String) (req : UpdateTicketRequest) (userID userName : String) (isAgent : Bool)
  | changeStatus (id : String) (req : ChangeStatusRequest) (userID userName : String)
      (isAgent : Bool)
  | assign (id : String) (req : AssignTicketRequest) (userID userName : String)
  | transfer (id : String) (req : TransferTicketRequest) (userID userName : String)
  | addReply (id : String) (req : CreateMessageRequest)
      (senderID senderName senderEmail : String) (senderType : SenderType)
  | rate (id : String) (req : RateTicketRequest) (userID : String)
  | delete (id : String) (deletedBy : String)
  | bulkAssign (tenantID : String) (ids : List String) (agentID changedBy changedByName : String)
  | bulkStatus (tenantID : String) (ids : List String) (status : TicketStatus)
      (changedBy changedByName : String)
  | bulkPriority (tenantID : String) (ids : List String) (priority : TicketPriority)
      (changedBy changedByName : String)
  | bulkTransfer (tenantID : String) (ids : List String)
      (departmentID changedBy changedByName : String)
  | bulkDelete (tenantID : String) (ids : List String)
deriving Repr

/-- Apply one operation at one instant; failures leave the store as it
was. -/
def runOp (s : State) (op : Op) (now : Nat) : State :=
  match op with
  | .create req a b c =>
    match CreateTicket s req a b c now with
    | .ok (s', _, _) => s'
    | .error _ => s
  | .update id req a b ag =>
    match UpdateTicket s id req a b ag now with
    | .ok (s', _) => s'
    | .error _ => s
  | .changeStatus id req a b ag =>
    match ChangeStatus s id req a b ag now with
    | .ok (s', _) => s'
    | .error _ => s
  | .assign id req a b =>
    match AssignTicket s id req a b now with
    | .ok (s', _) => s'
    | .error _ => s
  | .transfer id req a b =>
    match TransferTicket s id req a b now with
    | .ok (s', _) => s'
    | .error _ => s
  | .addReply id req a b c st =>
    match AddReply s id req a b c st now with
    | .ok (s', _) => s'
    | .error _ => s
  | .rate id req a =>
    match RateTicket s id req a now with
    | .ok (s', _) => s'
    | .error _ => s
  | .delete id deletedBy =>
    match DeleteTicket s id deletedBy now with
    | .ok s' => s'
    | .error _ => s
  | .bulkAssign tn ids ag cb cbn =>
    match BulkAssignTickets s tn ids ag cb cbn now with
    | .ok (s', _) => s'
    | .error _ => s
  | .bulkStatus tn ids st cb cbn => (BulkChangeStatus s tn ids st cb cbn now).1
  | .bulkPriority tn ids pr cb cbn => (BulkChangePriority s tn ids pr cb cbn now).1
  | .bulkTransfer tn ids d cb cbn =>
    match BulkTransferDepartment s tn ids d cb cbn now with
    | .ok (s', _) => s'
    | .error _ => s
  | .bulkDelete tn ids => (BulkDeleteTickets s tn ids now).1

/-- Apply a sequence of timestamped operations. -/
def runOps (s : State) : List (Op × Nat) → State
  | [] => s
  | (op, now) :: rest => runOps (runOp s op now) rest

/-! ## Invariant definitions -/

/-- A ticket currently attached to department `d` that counts as open:
not soft-deleted and neither resolved nor closed (spec §8, counter
conservation). -/
def countedTicket (d : Nat) (t : Ticket) : Bool :=
  t.departmentID == some d && !t.isDeleted &&
    !(t.status == StatusResolved) && !(t.status == StatusClosed)

/-- Number of open tickets currently attached to department `d`. -/
def openCount (s : State) (d : Nat) : Int :=
  (s.tickets.countP (fun p => countedTicket d p.2) : Int)

/-- Store well-formedness: ticket keys are distinct and below the
allocator, so inserts are fresh and keyed updates touch one document. -/
def TicketKeysWF (s : State) : Prop :=
  (s.tickets.map Prod.fst).Nodup ∧ ∀ p ∈ s.tickets, p.1 < s.nextOID

/-- Counter conservation: every department's `openTickets` equals the
number of its open tickets. -/
def DeptCountInv (s : State) : Prop :=
  ∀ q ∈ s.departments, q.2.openTickets = openCount s q.1

/-- The C2 invariant: well-formed keys plus counter conservation. -/
def CounterInv (s : State) : Prop :=
  TicketKeysWF s ∧ DeptCountInv s

/-- Both denormalized counters are non-negative. -/
def NonnegInv (s : State) : Prop :=
  (∀ q ∈ s.agents, 0 ≤ q.2.currentTickets) ∧ (∀ q ∈ s.departments, 0 ≤ q.2.openTickets)

/-- Every agent is within capacity. -/
def CapacityInv (s : State) : Prop :=
  ∀ q ∈ s.agents, q.2.currentTickets ≤ q.2.maxTickets

/-- The customer rows of the spec §4.1 transition table, written from
the spec: resolved→{reopened, closed}, pending→{open},
open→{cancelled}. -/
def customerMayTransition (src dst : TicketStatus) : Bool :=
  (src == StatusResolved && (dst == StatusReopened || dst == StatusClosed)) ||
  (src == StatusPending && dst == StatusOpen) ||
  (src == StatusOpen && dst == StatusCancelled)

/-- A status change whose department-counter side effects agree with the
change of counted-ness of the ticket: into resolved only from a
non-resolved, non-closed status; into closed only from a non-closed
status; into reopened only from resolved or closed. -/
def counterSafe (src dst : TicketStatus) : Bool :=
  match dst with
  | StatusResolved => !(src == StatusResolved) && !(src == StatusClosed)
  | StatusClosed => !(src == StatusClosed)
  | StatusReopened => src == StatusResolved || src == StatusClosed
  | _ => false

/-- The operations of the C2 claim (create/assign/resolve/close/reopen/
transfer/delete), restricted so that each resolve/close/reopen is a
`counterSafe` transition and each transfer targets a ticket that is
neither resolved nor closed.  An operation whose target does not resolve
(and which therefore fails and changes nothing) is allowed. -/
def SafeOp (s : State) (op : Op) : Bool :=
  match op with
  | .create .. => true
  | .assign .. => true
  | .delete .. => true
  | .changeStatus id req _ _ _ =>
    (match parseOID id with
     | some tid =>
       match ticketGetByID s tid with
       | some t => counterSafe t.status req.status
       | none => true
     | none => true)
  | .transfer id _ _ _ =>
    (match parseOID id with
     | some tid =>
       match ticketGetByID s tid with
       | some t => !(t.status == StatusResolved) && !(t.status == StatusClosed)
       | none => true
     | none => true)
  | _ => false

/-- A sequence of operations each of which is `SafeOp` in the state it
runs in. -/
inductive SafeChain : State → List (Op × Nat) → Prop where
  | nil : ∀ s, SafeChain s []
  | cons : ∀ s op now rest, SafeOp s op = true → SafeChain (runOp s op now) rest →
      SafeChain s ((op, now) :: rest)

/-! ## Concrete fixtures

Small stores used to witness the theorems on concrete inputs. -/

/-- A department with one open ticket. -/
def fixDept : Department :=
  { tenantID := "t1", name := "Support", openTickets := 1, totalTickets := 1 }

/-- An open ticket in department 10 of tenant `t1`. -/
def fixTicket : Ticket :=
  { tenantID := "t1", ticketNumber := "TKT-000001", subject := "s", description := "d",
    ttype := "question", status := StatusOpen, priority := PriorityMedium, source := "web",
    customerID := "cust1", customerName := "Cust", customerEmail := "c@x",
    departmentID := some 10, departmentName := "Support" }

/-- An available agent with spare capacity. -/
def fixAgent : Agent :=
  { tenantID := "t1", userID := "agentuser1", name := "Ann", email := "a@x",
    status := AgentAvailable, currentTickets := 0, maxTickets := 2 }

/-- Base store: one ticket, one agent, one department, SLA and
auto-assign disabled. -/
def fixState : State :=
  { tickets := [(1, fixTicket)],
    agents := [(5, fixAgent)],
    departments := [(10, fixDept)],
    nextOID := 2,
    config := { slaEnabled := false, autoAssignEnabled := false } }

/-- The hex id string of ticket 1. -/
def oid1 : String := toHex24 1

/-- A tenant default SLA policy with no priority entries. -/
def fixEmptyPolicy : SLAPolicy := { tenantID := "t1", priorities := [], isDefault := true }

/-- SLA enabled, the empty policy as the tenant default. -/
def fixSLAState : State :=
  { slaPolicies := [(20, fixEmptyPolicy)],
    config := { slaEnabled := true, autoAssignEnabled := false } }

/-- A medium-priority ticket with no department and no due dates. -/
def fixSLATicket : Ticket :=
  { tenantID := "t1", ticketNumber := "TKT-000001", subject := "s", description := "d",
    ttype := "question", status := StatusOpen, priority := PriorityMedium, source := "web",
    customerID := "c", customerName := "C", customerEmail := "e" }

/-- A default policy with a medium-priority entry. -/
def fixFullPolicy : SLAPolicy :=
  { tenantID := "t1", isDefault := true,
    priorities := [{ priority := PriorityMedium, firstResponseMins := 240, resolutionMins := 480 }] }

/-- One history entry of the `updated` action as `UpdateTicket` writes
it for one tracked change. -/
def mkUpdEntry (tid : Nat) (tenant : String) (ch : Chg) (userID userName : String) :
    TicketHistory :=
  { ticketID := tid, tenantID := tenant, action := "updated", field := ch.1,
    oldValue := ch.2.1, newValue := ch.2.2, changedBy := userID, changedByName := userName,
    comment := "" }

/-- The history entries the amended C7 predicts for a patch, computed
from the pre-update ticket: one entry per present-and-changed tracked
field, except that a resolving category always produces an entry. -/
def expectedUpdateEntries (s : State) (tid : Nat) (t0 : Ticket) (req : UpdateTicketRequest)
    (userID userName : String) : List TicketHistory :=
  ((match req.subject with
    | some v => if v ≠ t0.subject then [(("subject", t0.subject, v) : Chg)] else []
    | none => []) ++
   (match req.description with
    | some v => if v ≠ t0.description then [(("description", t0.description, v) : Chg)] else []
    | none => []) ++
   (match req.ttype with
    | some v => if v ≠ t0.ttype then [(("type", t0.ttype, v) : Chg)] else []
    | none => []) ++
   (match req.priority with
    | some v =>
      if v ≠ t0.priority then
        [(("priority", priorityString t0.priority, priorityString v) : Chg)]
      else []
    | none => []) ++
   (match req.departmentID with
    | some str =>
      match parseOID str with
      | some d =>
        match deptGetByID s d with
        | some dept =>
          if t0.departmentID ≠ some d then
            [(("department", t0.departmentName, dept.name) : Chg)]
          else []
        | none => []
      | none => []
    | none => []) ++
   (match req.categoryID with
    | some str =>
      match parseOID str with
      | some c =>
        match catGetByID s c with
        | some cat => [(("category", t0.categoryName, cat.name) : Chg)]
        | none => []
      | none => []
    | none => [])).map (fun ch => mkUpdEntry tid t0.tenantID ch userID userName)

/-- The base ticket with a category set. -/
def fixCatTicket : Ticket := { fixTicket with categoryID := some 7, categoryName := "General" }

/-- Base store with the category ticket and its category. -/
def fixCatState : State :=
  { fixState with tickets := [(1, fixCatTicket)],
                  categories := [(7, { tenantID := "t1", name := "General" })] }

/-- Base store with a resolved ticket instead of an open one. -/
def fixResolvedState : State :=
  { fixState with tickets := [(1, { fixTicket with status := StatusResolved })] }

/-- A store already at the counter floor: the resolved ticket still
points at agent 5, the agent is at zero current tickets and the
department open counter is already zero. -/
def fixNegState : State :=
  { fixState with
      tickets := [(1, { fixTicket with status := StatusResolved,
                                       assignedToID := toHex24 5 })],
      departments := [(10, { fixDept with openTickets := 0 })] }

/-- A counter-consistent store holding a resolved ticket in department
10 (whose open counter is rightly zero) and an empty second department
11. -/
def fixMoveState : State :=
  { fixState with
      tickets := [(1, { fixTicket with status := StatusResolved })],
      departments := [(10, { fixDept with openTickets := 0 }),
                      (11, { tenantID := "t1", name := "Sales" })] }

/-! ## Association-list lemmas -/

theorem findBy_updBy (k k' : Nat) (f : α → α) (l : List (Nat × α)) :
    findBy k' (updBy k f l) = if k' = k then (findBy k l).map f else findBy k' l := by
  induction l with
  | nil =>
    simp only [updBy, List.map_nil, findBy]
    split <;> rfl
  | cons p t ih =>
    obtain ⟨a, b⟩ := p
    simp only [updBy, List.map_cons] at ih ⊢
    by_cases hak : a = k
    · subst hak
      rw [if_pos rfl]
      by_cases hk' : k' = a
      · subst hk'
        simp [findBy]
      · rw [findBy, if_neg (fun h : a = k' => hk' h.symm), ih, if_neg hk', if_neg hk',
            findBy, if_neg (fun h : a = k' => hk' h.symm)]
    · rw [if_neg hak]
      by_cases hk'a : a = k'
      · subst hk'a
        rw [findBy, if_pos rfl, if_neg hak, findBy, if_pos rfl]
      · rw [findBy, if_neg hk'a, ih]
        by_cases hkk : k' = k
        · rw [if_pos hkk, if_pos hkk, findBy, if_neg hak]
        · rw [if_neg hkk, if_neg hkk, findBy, if_neg hk'a]

theorem updBy_map_fst (k : Nat) (f : α → α) (l : List (Nat × α)) :
    (updBy k f l).map Prod.fst = l.map Prod.fst := by
  induction l with
  | nil => rfl
  | cons p t ih =>
    obtain ⟨a, b⟩ := p
    simp only [updBy, List.map_cons] at ih ⊢
    by_cases hak : a = k
    · subst hak
      simp [ih]
    · rw [if_neg hak]
      simp only [List.map_cons, ih]

theorem findBy_mem {k : Nat} {l : List (Nat × α)} {a : α} (h : findBy k l = some a) :
    (k, a) ∈ l := by
  induction l with
  | nil => simp [findBy] at h
  | cons p t ih =>
    obtain ⟨x, y⟩ := p
    rw [findBy] at h
    by_cases hxk : x = k
    · subst hxk
      rw [if_pos rfl] at h
      cases h
      exact List.mem_cons_self _ _
    · rw [if_neg hxk] at h
      exact List.mem_cons_of_mem _ (ih h)

theorem updBy_not_mem {k : Nat} {l : List (Nat × α)} (f : α → α)
    (h : k ∉ l.map Prod.fst) : updBy k f l = l := by
  induction l with
  | nil => rfl
  | cons p t ih =>
    obtain ⟨x, y⟩ := p
    simp only [List.map_cons, List.mem_cons] at h
    push_neg at h
    simp only [updBy, List.map_cons]
    rw [if_neg (fun hx : x = k => h.1 hx.symm)]
    have ht := ih h.2
    simp only [updBy] at ht
    rw [ht]

theorem countP_updBy {k : Nat} {l : List (Nat × α)} {t0 : α}
    (hnd : (l.map Prod.fst).Nodup) (h : findBy k l = some t0) (p : α → Bool) (f : α → α) :
    (updBy k f l).countP (fun q => p q.2) + (if p t0 then 1 else 0)
      = l.countP (fun q => p q.2) + (if p (f t0) then 1 else 0) := by
  induction l with
  | nil => simp [findBy] at h
  | cons q t ih =>
    obtain ⟨x, y⟩ := q
    simp only [List.map_cons, List.nodup_cons] at hnd
    rw [findBy] at h
    by_cases hxk : x = k
    · subst hxk
      rw [if_pos rfl] at h
      cases h
      have hrest : updBy x f t = t := updBy_not_mem f hnd.1
      simp only [updBy, List.map_cons, if_pos rfl]
      simp only [updBy] at hrest
      rw [hrest]
      rw [List.countP_cons, List.countP_cons]
      by_cases h0 : p t0 = true <;> by_cases h1 : p (f t0) = true <;>
        simp [h0, h1] <;> omega
    · rw [if_neg hxk] at h
      simp only [updBy, List.map_cons, if_neg hxk]
      rw [List.countP_cons, List.countP_cons]
      have hrec := ih hnd.2 h
      simp only [updBy] at hrec
      by_cases h0 : p t0 = true <;> by_cases h1 : p (f t0) = true <;>
        by_cases h2 : p y = true <;> simp [h0, h1, h2] at hrec ⊢ <;> omega

theorem countP_pos_of_findBy {k : Nat} {l : List (Nat × α)} {t0 : α}
    (h : findBy k l = some t0) (p : α → Bool) (hp : p t0 = true) :
    0 < l.countP (fun q => p q.2) := by
  rw [List.countP_pos_iff]
  exact ⟨(k, t0), findBy_mem h, hp⟩

/-! ## Claim C1: the status transition table -/

theorem getTicket_ok {s : State} {idStr : String} {tid : Nat} {t : Ticket}
    (hp : parseOID idStr = some tid) (hg : ticketGetByID s tid = some t) :
    GetTicket s idStr = .ok (tid, t) := by
  simp only [GetTicket, hp, hg]

/-- Claim C1: agents may perform any status transition, while customers
are restricted to the spec table (resolved to reopened or closed,
pending to open, open to cancelled); `ChangeStatus` succeeds exactly on
the permitted triples and fails with the invalid-transition error
otherwise. -/
theorem changeStatus_transition_table :
    (∀ src dst : TicketStatus, ∀ ag : Bool,
        isValidStatusTransition src dst ag = (ag || customerMayTransition src dst)) ∧
    (∀ (s : State) (idStr : String) (req : ChangeStatusRequest) (uid uname : String)
        (ag : Bool) (now : Nat) (tid : Nat) (t : Ticket),
        parseOID idStr = some tid → ticketGetByID s tid = some t →
        if ag || customerMayTransition t.status req.status then
          ∃ s' t', ChangeStatus s idStr req uid uname ag now = .ok (s', t')
        else
          ChangeStatus s idStr req uid uname ag now = .error .invalidTransition) := by
  have htable : ∀ src dst : TicketStatus, ∀ ag : Bool,
      isValidStatusTransition src dst ag = (ag || customerMayTransition src dst) := by
    intro src dst ag
    cases src <;> cases dst <;> cases ag <;> rfl
  refine ⟨htable, ?_⟩
  intro s idStr req uid uname ag now tid t hp hg
  cases hb : (ag || customerMayTransition t.status req.status) with
  | false =>
    rw [if_neg (by simp [hb])]
    simp only [ChangeStatus, getTicket_ok hp hg, htable, hb]
    rfl
  | true =>
    rw [if_pos (by simp [hb])]
    simp only [ChangeStatus, getTicket_ok hp hg, htable, hb]
    exact ⟨_, _, rfl⟩

theorem changeStatus_transition_table_witness :
    (∃ s' t', ChangeStatus fixState oid1 { status := StatusResolved } "u" "n" true 0
        = .ok (s', t')) ∧
    ChangeStatus fixState oid1 { status := StatusResolved } "u" "n" false 0
        = .error .invalidTransition := by
  constructor
  · have h := changeStatus_transition_table.2 fixState oid1 { status := StatusResolved }
      "u" "n" true 0 1 fixTicket (by decide) (by decide)
    simpa using h
  · have h := changeStatus_transition_table.2 fixState oid1 { status := StatusResolved }
      "u" "n" false 0 1 fixTicket (by decide) (by decide)
    simpa [fixTicket, customerMayTransition] using h

/-! ## Claim C9: transfer to a nonexistent department -/

/-- Claim C9: transferring a ticket to a department id that resolves to
no department fails with the not-found error before any store write,
and a malformed department id string likewise fails with the
invalid-id validation error, leaving tickets, counters and history
untouched. -/
theorem transfer_nonexistent_department :
    (∀ (s : State) (idStr : String) (req : TransferTicketRequest) (uid uname : String)
        (now : Nat) (tid : Nat) (t : Ticket) (d : Nat),
        parseOID idStr = some tid → ticketGetByID s tid = some t →
        parseOID req.departmentID = some d → deptGetByID s d = none →
        TransferTicket s idStr req uid uname now
          = .error (.notFound "department not found")) ∧
    (∀ (s : State) (idStr : String) (req : TransferTicketRequest) (uid uname : String)
        (now : Nat) (tid : Nat) (t : Ticket),
        parseOID idStr = some tid → ticketGetByID s tid = some t →
        parseOID req.departmentID = none →
        TransferTicket s idStr req uid uname now
          = .error (.invalidId "invalid department ID")) := by
  constructor
  · intro s idStr req uid uname now tid t d hp hg hpd hd
    simp only [TransferTicket, getTicket_ok hp hg, hpd, hd]
  · intro s idStr req uid uname now tid t hp hg hpd
    simp only [TransferTicket, getTicket_ok hp hg, hpd]

theorem transfer_nonexistent_department_witness :
    TransferTicket fixState oid1 { departmentID := toHex24 99 } "u" "n" 0
      = .error (.notFound "department not found") ∧
    TransferTicket fixState oid1 { departmentID := "zz" } "u" "n" 0
      = .error (.invalidId "invalid department ID") :=
  ⟨transfer_nonexistent_department.1 fixState oid1 { departmentID := toHex24 99 } "u" "n" 0
      1 fixTicket 99 (by decide) (by decide) (by decide) (by decide),
   transfer_nonexistent_department.2 fixState oid1 { departmentID := "zz" } "u" "n" 0
      1 fixTicket (by decide) (by decide) (by decide)⟩

/-! ## Claim C3: assignment capacity -/

theorem findBy_eq_of_mem_nodup {l : List (Nat × α)} (hnd : (l.map Prod.fst).Nodup)
    {k : Nat} {a : α} (hm : (k, a) ∈ l) : findBy k l = some a := by
  induction l with
  | nil => cases hm
  | cons p t ih =>
    obtain ⟨x, y⟩ := p
    simp only [List.map_cons, List.nodup_cons] at hnd
    rcases List.mem_cons.mp hm with h | h
    · cases h
      rw [findBy, if_pos rfl]
    · have hxk : x ≠ k := by
        intro hx
        subst hx
        exact hnd.1 (List.mem_map.mpr ⟨(x, a), h, rfl⟩)
      rw [findBy, if_neg hxk]
      exact ih hnd.2 h

theorem capacityInv_of_agents_eq {s s' : State} (h : s'.agents = s.agents)
    (hc : CapacityInv s) : CapacityInv s' := by
  intro q hq
  rw [h] at hq
  exact hc q hq

theorem capacityInv_agentDec {s : State} (hc : CapacityInv s) (k : Nat) (now : Nat) :
    CapacityInv (agentDecTicketCount s k now) := by
  intro q hq
  simp only [agentDecTicketCount, updBy, List.mem_map] at hq
  obtain ⟨p, hp, rfl⟩ := hq
  have hcp := hc p hp
  by_cases hpk : p.1 = k
  · rw [if_pos hpk]
    dsimp only
    split
    · dsimp only [CapacityInv] at *
      omega
    · exact hcp
  · rw [if_neg hpk]
    exact hcp

theorem capacityInv_agentInc {s : State} (hnd : (s.agents.map Prod.fst).Nodup)
    (hc : CapacityInv s) (aid : Nat) (now : Nat)
    (ha : ∀ b, findBy aid s.agents = some b → b.currentTickets < b.maxTickets) :
    CapacityInv (agentIncTicketCount s aid now) := by
  intro q hq
  simp only [agentIncTicketCount, updBy, List.mem_map] at hq
  obtain ⟨p, hp, rfl⟩ := hq
  by_cases hpk : p.1 = aid
  · rw [if_pos hpk]
    have hfb : findBy aid s.agents = some p.2 := by
      subst hpk
      exact findBy_eq_of_mem_nodup hnd (by simpa using hp)
    have := ha p.2 hfb
    dsimp only
    omega
  · rw [if_neg hpk]
    exact hc p hp

/-- Claim C3: assigning a ticket to an agent who is at or over their
`maxTickets` capacity is rejected with the capacity error before any
write, and a successful `AssignTicket` keeps every agent within
capacity (given distinct agent document ids). -/
theorem assign_capacity :
    (∀ (s : State) (idStr : String) (req : AssignTicketRequest) (abID abName : String)
        (now : Nat) (tid : Nat) (t : Ticket) (aid : Nat) (agent : Agent),
        parseOID idStr = some tid → ticketGetByID s tid = some t →
        agentGetByUserID s t.tenantID req.assigneeID = some (aid, agent) →
        agent.currentTickets ≥ agent.maxTickets →
        AssignTicket s idStr req abID abName now = .error .capacityError) ∧
    (∀ (s : State) (idStr : String) (req : AssignTicketRequest) (abID abName : String)
        (now : Nat) (s' : State) (t' : Ticket),
        (s.agents.map Prod.fst).Nodup → CapacityInv s →
        AssignTicket s idStr req abID abName now = .ok (s', t') →
        CapacityInv s') := by
  constructor
  · intro s idStr req abID abName now tid t aid agent hp hg hag hcap
    simp only [AssignTicket, getTicket_ok hp hg, hag]
    rw [if_pos hcap]
  · intro s idStr req abID abName now s' t' hnd hc h
    unfold AssignTicket at h
    split at h
    · cases h
    · rename_i tid t hGT
      split at h
      · cases h
      · rename_i aid agent hag
        split at h
        · cases h
        · rename_i hcap
          simp only [Except.ok.injEq, Prod.mk.injEq] at h
          obtain ⟨hs, -⟩ := h
          subst hs
          have hmem : (aid, agent) ∈ s.agents := List.mem_of_find?_eq_some hag
          have hfb : findBy aid s.agents = some agent := findBy_eq_of_mem_nodup hnd hmem
          rw [not_le] at hcap
          set s₁ := if t.assignedToID ≠ "" then agentDecTicketCount s (oidOfUser t.assignedToID) now else s with hs₁
          have hnd₁ : (s₁.agents.map Prod.fst).Nodup := by
            rw [hs₁]
            split
            · simpa [agentDecTicketCount, updBy_map_fst] using hnd
            · exact hnd
          have hc₁ : CapacityInv s₁ := by
            rw [hs₁]
            split
            · exact capacityInv_agentDec hc _ now
            · exact hc
          have ha₁ : ∀ b, findBy aid s₁.agents = some b →
              b.currentTickets < b.maxTickets := by
            intro b hb
            rw [hs₁] at hb
            by_cases hassn : t.assignedToID ≠ ""
            · rw [if_pos hassn] at hb
              simp only [agentDecTicketCount] at hb
              rw [findBy_updBy] at hb
              split at hb
              · rename_i haid
                rw [← haid, hfb] at hb
                simp only [Option.map_some', Option.some.injEq] at hb
                subst hb
                split
                · simp only [Agent.currentTickets, Agent.maxTickets]
                  omega
                · omega
              · rw [hfb] at hb
                cases hb
                omega
            · rw [if_neg hassn] at hb
              rw [hfb] at hb
              cases hb
              omega
          apply @capacityInv_of_agents_eq _ (createHistory _ _ _ _ _ _ _ _ _ _) rfl
          apply capacityInv_agentInc _ _ aid now
          · intro b hb
            apply ha₁
            simpa [ticketUpdate] using hb
          · simpa [ticketUpdate] using hnd₁
          · apply @capacityInv_of_agents_eq s₁ _ _ hc₁
            simp [ticketUpdate]

theorem assign_capacity_witness :
    AssignTicket
        { fixState with agents := [(5, { fixAgent with currentTickets := 2 })] }
        oid1 { assigneeID := "agentuser1" } "b" "B" 0 = .error .capacityError ∧
    (∀ s' t', AssignTicket fixState oid1 { assigneeID := "agentuser1" } "b" "B" 0
        = .ok (s', t') → CapacityInv s') := by
  constructor
  · exact assign_capacity.1 _ oid1 _ "b" "B" 0 1 fixTicket 5
      { fixAgent with currentTickets := 2 } (by decide) (by decide) (by decide) (by decide)
  · intro s' t' h
    exact assign_capacity.2 fixState oid1 _ "b" "B" 0 s' t' (by decide)
      (by intro q hq; rcases List.mem_singleton.mp hq with rfl; decide) h

/-! ## Claim C6: SLA resolution -/

/-- Claim C6 counterexample: with SLA enabled and a resolved default
policy whose priority list has no entry for the ticket's priority,
`calculateSLA` returns the ticket unchanged with both due dates still
unset, refuting the claim that it always populates them. -/
theorem calculateSLA_leaves_due_dates_unset :
    calculateSLA fixSLAState fixSLATicket 0 = fixSLATicket ∧
    fixSLAState.config.slaEnabled = true ∧
    fixSLATicket.firstResponseDue = none ∧ fixSLATicket.resolutionDue = none := by
  refine ⟨by decide, rfl, rfl, rfl⟩

/-- Claim C6 amended: `calculateSLA` never fails, but it sets the due
dates only conditionally: with SLA disabled it returns the ticket
unchanged; with SLA enabled and no resolvable policy it applies the
static default hour offsets; with a resolved policy it sets the dates
from the entry matching the ticket's priority, and leaves both dates
unset when the policy has no such entry. -/
theorem calculateSLA_behavior (s : State) (t : Ticket) (now : Nat) :
    (s.config.slaEnabled = false → calculateSLA s t now = t) ∧
    (s.config.slaEnabled = true →
      (resolvedPolicy s t = none →
        (calculateSLA s t now).firstResponseDue
            = some (now + s.config.defaultResponseHours * 3600) ∧
        (calculateSLA s t now).resolutionDue
            = some (now + s.config.defaultResolveHours * 3600)) ∧
      (∀ pid policy, resolvedPolicy s t = some (pid, policy) →
        (∀ pr, policy.priorities.find? (fun p => p.priority == t.priority) = some pr →
          (calculateSLA s t now).firstResponseDue = some (now + pr.firstResponseMins * 60) ∧
          (calculateSLA s t now).resolutionDue = some (now + pr.resolutionMins * 60) ∧
          (calculateSLA s t now).slaPolicyID = some pid) ∧
        (policy.priorities.find? (fun p => p.priority == t.priority) = none →
          calculateSLA s t now = t))) := by
  constructor
  · intro hdis
    unfold calculateSLA
    rw [if_pos hdis]
  · intro hen
    have hne : ¬ s.config.slaEnabled = false := by simp [hen]
    constructor
    · intro hrp
      simp only [calculateSLA, if_neg hne, hrp]
      exact ⟨trivial, trivial⟩
    · intro pid policy hrp
      constructor
      · intro pr hpr
        simp only [calculateSLA, if_neg hne, hrp, hpr]
        exact ⟨trivial, trivial, trivial⟩
      · intro hpr
        simp only [calculateSLA, if_neg hne, hrp, hpr]

theorem calculateSLA_behavior_witness :
    (calculateSLA { config := { slaEnabled := true } } fixSLATicket 0).firstResponseDue
        = some (0 + 24 * 3600) ∧
    (calculateSLA { fixSLAState with slaPolicies := [(20, fixFullPolicy)] }
        fixSLATicket 0).firstResponseDue = some (0 + 240 * 60) ∧
    calculateSLA { fixSLAState with config := { slaEnabled := false } } fixSLATicket 0
        = fixSLATicket := by
  refine ⟨?_, ?_, ?_⟩
  · exact (((calculateSLA_behavior { config := { slaEnabled := true } } fixSLATicket 0).2
      rfl).1 (by decide)).1
  · exact ((((calculateSLA_behavior { fixSLAState with slaPolicies := [(20, fixFullPolicy)] }
      fixSLATicket 0).2 rfl).2 20 fixFullPolicy (by decide)).1
      { priority := PriorityMedium, firstResponseMins := 240, resolutionMins := 480 }
      (by decide)).1
  · exact (calculateSLA_behavior _ fixSLATicket 0).1 rfl

/-! ## Claim C7: per-field update history -/

theorem getTicket_ok_inv {s : State} {idStr : String} {tid : Nat} {t : Ticket}
    (h : GetTicket s idStr = .ok (tid, t)) :
    parseOID idStr = some tid ∧ ticketGetByID s tid = some t := by
  unfold GetTicket at h
  split at h
  · cases h
  · rename_i tid2 hp
    split at h
    · cases h
    · rename_i t2 hg
      cases h
      exact ⟨hp, hg⟩

theorem history_foldl_createHistory (x : State) (tid : Nat) (tenant : String)
    (l : List Chg) (uid uname : String) :
    (l.foldl (fun s ch => createHistory s tid tenant "updated" ch.1 ch.2.1 ch.2.2
        uid uname "") x).history
      = x.history ++ l.map (fun ch => mkUpdEntry tid tenant ch uid uname) := by
  induction l generalizing x with
  | nil => simp
  | cons ch rest ih =>
    simp only [List.foldl_cons, List.map_cons]
    rw [ih]
    simp [createHistory, historyAdd, mkUpdEntry]

theorem updStepSubject_preserves (t : Ticket) (v? : Option String) :
    (updStepSubject t v?).1.description = t.description ∧
    (updStepSubject t v?).1.ttype = t.ttype ∧
    (updStepSubject t v?).1.priority = t.priority ∧
    (updStepSubject t v?).1.departmentID = t.departmentID ∧
    (updStepSubject t v?).1.departmentName = t.departmentName ∧
    (updStepSubject t v?).1.categoryName = t.categoryName ∧
    (updStepSubject t v?).1.tenantID = t.tenantID := by
  cases v? with
  | none => exact ⟨rfl, rfl, rfl, rfl, rfl, rfl, rfl⟩
  | some v => by_cases hv : v ≠ t.subject <;> simp [updStepSubject, hv]

theorem updStepDescription_preserves (t : Ticket) (v? : Option String) :
    (updStepDescription t v?).1.ttype = t.ttype ∧
    (updStepDescription t v?).1.priority = t.priority ∧
    (updStepDescription t v?).1.departmentID = t.departmentID ∧
    (updStepDescription t v?).1.departmentName = t.departmentName ∧
    (updStepDescription t v?).1.categoryName = t.categoryName ∧
    (updStepDescription t v?).1.tenantID = t.tenantID := by
  cases v? with
  | none => exact ⟨rfl, rfl, rfl, rfl, rfl, rfl⟩
  | some v => by_cases hv : v ≠ t.description <;> simp [updStepDescription, hv]

theorem updStepType_preserves (t : Ticket) (v? : Option String) :
    (updStepType t v?).1.priority = t.priority ∧
    (updStepType t v?).1.departmentID = t.departmentID ∧
    (updStepType t v?).1.departmentName = t.departmentName ∧
    (updStepType t v?).1.categoryName = t.categoryName ∧
    (updStepType t v?).1.tenantID = t.tenantID := by
  cases v? with
  | none => exact ⟨rfl, rfl, rfl, rfl, rfl⟩
  | some v => by_cases hv : v ≠ t.ttype <;> simp [updStepType, hv]

theorem calculateSLA_preserves (s : State) (t : Ticket) (now : Nat) :
    (calculateSLA s t now).departmentID = t.departmentID ∧
    (calculateSLA s t now).departmentName = t.departmentName ∧
    (calculateSLA s t now).categoryName = t.categoryName ∧
    (calculateSLA s t now).tenantID = t.tenantID := by
  unfold calculateSLA
  split
  · exact ⟨rfl, rfl, rfl, rfl⟩
  · split
    · exact ⟨rfl, rfl, rfl, rfl⟩
    · split
      · exact ⟨rfl, rfl, rfl, rfl⟩
      · exact ⟨rfl, rfl, rfl, rfl⟩

theorem updStepPriority_preserves (s : State) (now : Nat) (t : Ticket)
    (v? : Option TicketPriority) :
    (updStepPriority s now t v?).1.departmentID = t.departmentID ∧
    (updStepPriority s now t v?).1.departmentName = t.departmentName ∧
    (updStepPriority s now t v?).1.categoryName = t.categoryName ∧
    (updStepPriority s now t v?).1.tenantID = t.tenantID := by
  cases v? with
  | none => exact ⟨rfl, rfl, rfl, rfl⟩
  | some v =>
    obtain ⟨h1, h2, h3, h4⟩ := calculateSLA_preserves s { t with priority := v } now
    by_cases hv : v ≠ t.priority <;>
      simp [updStepPriority, hv, h1, h2, h3, h4]

theorem updStepDepartment_preserves (s : State) (t : Ticket) (v? : Option String) :
    (updStepDepartment s t v?).1.categoryName = t.categoryName ∧
    (updStepDepartment s t v?).1.tenantID = t.tenantID := by
  cases v? with
  | none => exact ⟨rfl, rfl⟩
  | some str =>
    cases hps : parseOID str with
    | none => simp [updStepDepartment, hps]
    | some d =>
      cases hdg : deptGetByID s d with
      | none => simp [updStepDepartment, hps, hdg]
      | some dept =>
        by_cases hd : t.departmentID ≠ some d <;> simp [updStepDepartment, hps, hdg, hd]

theorem updStepCategory_preserves (s : State) (t : Ticket) (v? : Option String) :
    (updStepCategory s t v?).1.tenantID = t.tenantID := by
  cases v? with
  | none => rfl
  | some str =>
    cases hps : parseOID str with
    | none => simp [updStepCategory, hps]
    | some c =>
      cases hcg : catGetByID s c with
      | none => simp [updStepCategory, hps, hcg]
      | some cat => simp [updStepCategory, hps, hcg]

theorem updApplyRest_tenantID (t : Ticket) (req : UpdateTicketRequest) :
    (updApplyRest t req).tenantID = t.tenantID := by
  unfold updApplyRest
  cases req.tags <;> cases req.ccEmails <;> cases req.customFields <;> rfl

theorem updStepSubject_chg (t : Ticket) (v? : Option String) :
    (updStepSubject t v?).2 = (match v? with
      | some v => if v ≠ t.subject then [(("subject", t.subject, v) : Chg)] else []
      | none => []) := by
  cases v? with
  | none => rfl
  | some v => by_cases hv : v ≠ t.subject <;> simp [updStepSubject, hv]

theorem updStepDescription_chg (t : Ticket) (v? : Option String) :
    (updStepDescription t v?).2 = (match v? with
      | some v => if v ≠ t.description then [(("description", t.description, v) : Chg)] else []
      | none => []) := by
  cases v? with
  | none => rfl
  | some v => by_cases hv : v ≠ t.description <;> simp [updStepDescription, hv]

theorem updStepType_chg (t : Ticket) (v? : Option String) :
    (updStepType t v?).2 = (match v? with
      | some v => if v ≠ t.ttype then [(("type", t.ttype, v) : Chg)] else []
      | none => []) := by
  cases v? with
  | none => rfl
  | some v => by_cases hv : v ≠ t.ttype <;> simp [updStepType, hv]

theorem updStepPriority_chg (s : State) (now : Nat) (t : Ticket) (v? : Option TicketPriority) :
    (updStepPriority s now t v?).2 = (match v? with
      | some v =>
        if v ≠ t.priority then
          [(("priority", priorityString t.priority, priorityString v) : Chg)]
        else []
      | none => []) := by
  cases v? with
  | none => rfl
  | some v => by_cases hv : v ≠ t.priority <;> simp [updStepPriority, hv]

theorem updStepDepartment_chg (s : State) (t : Ticket) (v? : Option String) :
    (updStepDepartment s t v?).2 = (match v? with
      | some str =>
        match parseOID str with
        | some d =>
          match deptGetByID s d with
          | some dept =>
            if t.departmentID ≠ some d then
              [(("department", t.departmentName, dept.name) : Chg)]
            else []
          | none => []
        | none => []
      | none => []) := by
  cases v? with
  | none => rfl
  | some str =>
    cases hps : parseOID str with
    | none => simp [updStepDepartment, hps]
    | some d =>
      cases hdg : deptGetByID s d with
      | none => simp [updStepDepartment, hps, hdg]
      | some dept =>
        by_cases hd : t.departmentID ≠ some d <;> simp [updStepDepartment, hps, hdg, hd]

theorem updStepCategory_chg (s : State) (t : Ticket) (v? : Option String) :
    (updStepCategory s t v?).2 = (match v? with
      | some str =>
        match parseOID str with
        | some c =>
          match catGetByID s c with
          | some cat => [(("category", t.categoryName, cat.name) : Chg)]
          | none => []
        | none => []
      | none => []) := by
  cases v? with
  | none => rfl
  | some str =>
    cases hps : parseOID str with
    | none => simp [updStepCategory, hps]
    | some c =>
      cases hcg : catGetByID s c with
      | none => simp [updStepCategory, hps, hcg]
      | some cat => simp [updStepCategory, hps, hcg]

/-- Claim C7 amended: a successful `UpdateTicket` appends exactly the
history entries predicted by `expectedUpdateEntries`: one per present
and actually-changed tracked field (subject, description, type,
priority, department), while a resolving category always produces an
entry even when identical to the current category. -/
theorem updateTicket_history_entries (s : State) (idStr : String) (req : UpdateTicketRequest)
    (uid uname : String) (ag : Bool) (now : Nat) (tid : Nat) (t0 : Ticket)
    (hp : parseOID idStr = some tid) (hg : ticketGetByID s tid = some t0)
    (hauth : ¬(ag = false ∧ t0.customerID ≠ uid)) :
    match UpdateTicket s idStr req uid uname ag now with
    | .ok (s2, _) => s2.history = s.history ++ expectedUpdateEntries s tid t0 req uid uname
    | .error _ => False := by
  simp only [UpdateTicket, getTicket_ok hp hg, if_neg hauth]
  rw [history_foldl_createHistory]
  have hbase : ∀ T : Ticket, (ticketUpdate s tid T now).history = s.history := fun _ => rfl
  rw [hbase, updApplyRest_tenantID]
  obtain ⟨s1d, s1t, s1p, s1di, s1dn, s1cn, s1tn⟩ := updStepSubject_preserves t0 req.subject
  obtain ⟨s2t, s2p, s2di, s2dn, s2cn, s2tn⟩ :=
    updStepDescription_preserves (updStepSubject t0 req.subject).1 req.description
  obtain ⟨s3p, s3di, s3dn, s3cn, s3tn⟩ :=
    updStepType_preserves (updStepDescription (updStepSubject t0 req.subject).1
      req.description).1 req.ttype
  obtain ⟨s4di, s4dn, s4cn, s4tn⟩ :=
    updStepPriority_preserves s now (updStepType (updStepDescription
      (updStepSubject t0 req.subject).1 req.description).1 req.ttype).1 req.priority
  obtain ⟨s5cn, s5tn⟩ :=
    updStepDepartment_preserves s (updStepPriority s now (updStepType (updStepDescription
      (updStepSubject t0 req.subject).1 req.description).1 req.ttype).1 req.priority).1
      req.departmentID
  have s6tn :=
    updStepCategory_preserves s (updStepDepartment s (updStepPriority s now (updStepType
      (updStepDescription (updStepSubject t0 req.subject).1 req.description).1 req.ttype).1
      req.priority).1 req.departmentID).1 req.categoryID
  rw [s6tn.trans (s5tn.trans (s4tn.trans (s3tn.trans (s2tn.trans s1tn))))]
  unfold expectedUpdateEntries
  simp only [List.map_append]
  rw [updStepSubject_chg, updStepDescription_chg, updStepType_chg, updStepPriority_chg,
      updStepDepartment_chg, updStepCategory_chg]
  rw [s1d, s2t.trans s1t, s3p.trans (s2p.trans s1p),
      s4di.trans (s3di.trans (s2di.trans s1di)), s4dn.trans (s3dn.trans (s2dn.trans s1dn)),
      s5cn.trans (s4cn.trans (s3cn.trans (s2cn.trans s1cn)))]

/-- Claim C7 counterexample: updating a ticket with its own current
category id still writes an `updated` history entry for the category
field, because the category block never compares the resolved category
to the ticket's current one. -/
theorem updateTicket_unchanged_category_writes_history :
    (UpdateTicket fixCatState oid1 { categoryID := some (toHex24 7) } "cust1" "Cust"
        true 0).toOption.map (fun p => (p.2.categoryID, p.2.categoryName, p.1.history))
      = some (fixCatTicket.categoryID, fixCatTicket.categoryName,
          [{ ticketID := 1, tenantID := "t1", action := "updated", field := "category",
             oldValue := "General", newValue := "General", changedBy := "cust1",
             changedByName := "Cust", comment := "" }]) := by
  decide

theorem updateTicket_history_entries_witness :
    match UpdateTicket fixState oid1 { subject := some "New subject" } "u" "U" true 0 with
    | .ok (s2, _) => s2.history = fixState.history ++
        expectedUpdateEntries fixState 1 fixTicket { subject := some "New subject" } "u" "U"
    | .error _ => False :=
  updateTicket_history_entries fixState oid1 { subject := some "New subject" } "u" "U"
    true 0 1 fixTicket (by decide) (by decide) (by simp)

/-! ## Claim C8: bulk skip semantics -/

/-- Claim C8 amended: every bulk operation silently skips ids that do
not parse or whose ticket cannot be found, raising no per-item error
and reporting only the aggregate success count; the tenant-mismatch
skip, however, exists only in `BulkDeleteTickets`. -/
theorem bulk_skip_semantics :
    (∀ (s : State) (tn bad : String) (rest : List String) (now : Nat),
       parseOID bad = none →
         (BulkDeleteTickets s tn (bad :: rest) now = BulkDeleteTickets s tn rest now) ∧
         (∀ pr cb cbn, BulkChangePriority s tn (bad :: rest) pr cb cbn now
             = BulkChangePriority s tn rest pr cb cbn now) ∧
         (∀ st cb cbn, BulkChangeStatus s tn (bad :: rest) st cb cbn now
             = BulkChangeStatus s tn rest st cb cbn now) ∧
         (∀ ag cb cbn, BulkAssignTickets s tn (bad :: rest) ag cb cbn now
             = BulkAssignTickets s tn rest ag cb cbn now) ∧
         (∀ d cb cbn, BulkTransferDepartment s tn (bad :: rest) d cb cbn now
             = BulkTransferDepartment s tn rest d cb cbn now)) ∧
    (∀ (s : State) (tn idStr : String) (tid : Nat) (rest : List String) (now : Nat),
       parseOID idStr = some tid → ticketGetByID s tid = none →
         (BulkDeleteTickets s tn (idStr :: rest) now = BulkDeleteTickets s tn rest now) ∧
         (∀ pr cb cbn, BulkChangePriority s tn (idStr :: rest) pr cb cbn now
             = BulkChangePriority s tn rest pr cb cbn now) ∧
         (∀ st cb cbn, BulkChangeStatus s tn (idStr :: rest) st cb cbn now
             = BulkChangeStatus s tn rest st cb cbn now) ∧
         (∀ ag cb cbn, BulkAssignTickets s tn (idStr :: rest) ag cb cbn now
             = BulkAssignTickets s tn rest ag cb cbn now) ∧
         (∀ d cb cbn, BulkTransferDepartment s tn (idStr :: rest) d cb cbn now
             = BulkTransferDepartment s tn rest d cb cbn now)) ∧
    (∀ (s : State) (tn idStr : String) (tid : Nat) (t : Ticket) (rest : List String)
        (now : Nat),
       parseOID idStr = some tid → ticketGetByID s tid = some t → t.tenantID ≠ tn →
       BulkDeleteTickets s tn (idStr :: rest) now = BulkDeleteTickets s tn rest now) ∧
    (∀ (s : State) (tn tn2 : String) (ids : List String) (st : TicketStatus)
        (pr : TicketPriority) (cb cbn : String) (now : Nat),
       BulkChangeStatus s tn ids st cb cbn now = BulkChangeStatus s tn2 ids st cb cbn now ∧
       BulkChangePriority s tn ids pr cb cbn now = BulkChangePriority s tn2 ids pr cb cbn now) ∧
    (BulkDeleteTickets fixState "t1" [oid1, "not-an-id"] 0).2 = 1 := by
  refine ⟨?_, ?_, ?_, ?_, ?_⟩
  · intro s tn bad rest now hbad
    refine ⟨?_, ?_, ?_, ?_, ?_⟩
    · simp [BulkDeleteTickets, bulkDeleteGo, hbad]
    · intro pr cb cbn
      simp [BulkChangePriority, bulkPriorityGo, hbad]
    · intro st cb cbn
      simp [BulkChangeStatus, bulkStatusGo, hbad]
    · intro ag cb cbn
      cases hag : agentGetByUserID s tn ag with
      | none => simp [BulkAssignTickets, hag]
      | some w =>
        obtain ⟨aid, agent⟩ := w
        simp [BulkAssignTickets, hag, bulkAssignGo, hbad]
    · intro d cb cbn
      cases hpd : parseOID d with
      | none => simp [BulkTransferDepartment, hpd]
      | some dd =>
        cases hdg : deptGetByID s dd with
        | none => simp [BulkTransferDepartment, hpd, hdg]
        | some dept => simp [BulkTransferDepartment, hpd, hdg, bulkTransferGo, hbad]
  · intro s tn idStr tid rest now hp hg
    refine ⟨?_, ?_, ?_, ?_, ?_⟩
    · simp [BulkDeleteTickets, bulkDeleteGo, hp, hg]
    · intro pr cb cbn
      simp [BulkChangePriority, bulkPriorityGo, hp, hg]
    · intro st cb cbn
      simp [BulkChangeStatus, bulkStatusGo, hp, hg]
    · intro ag cb cbn
      cases hag : agentGetByUserID s tn ag with
      | none => simp [BulkAssignTickets, hag]
      | some w =>
        obtain ⟨aid, agent⟩ := w
        simp [BulkAssignTickets, hag, bulkAssignGo, hp, hg]
    · intro d cb cbn
      cases hpd : parseOID d with
      | none => simp [BulkTransferDepartment, hpd]
      | some dd =>
        cases hdg : deptGetByID s dd with
        | none => simp [BulkTransferDepartment, hpd, hdg]
        | some dept => simp [BulkTransferDepartment, hpd, hdg, bulkTransferGo, hp, hg]
  · intro s tn idStr tid t rest now hp hg hmis
    simp [BulkDeleteTickets, bulkDeleteGo, hp, hg, hmis]
  · intro s tn tn2 ids st pr cb cbn now
    exact ⟨rfl, rfl⟩
  · decide

/-- Claim C8 counterexample: `BulkChangePriority` called with a foreign
tenant id still mutates a ticket belonging to another tenant and counts
it as a success, refuting the claimed tenant-mismatch skip for all bulk
operations. -/
theorem bulkChangePriority_processes_other_tenant :
    (BulkChangePriority fixState "t2" [oid1] PriorityHigh "a" "A" 0).2 = 1 ∧
    ((BulkChangePriority fixState "t2" [oid1] PriorityHigh "a" "A" 0).1.tickets.map
        (fun p => p.2.priority)) = [PriorityHigh] := by
  decide

theorem bulk_skip_semantics_witness :
    BulkDeleteTickets fixState "t1" ["zz" ] 0 = BulkDeleteTickets fixState "t1" [] 0 ∧
    BulkDeleteTickets fixState "t1" [toHex24 3] 0 = BulkDeleteTickets fixState "t1" [] 0 ∧
    BulkDeleteTickets fixState "t9" [oid1] 0 = BulkDeleteTickets fixState "t9" [] 0 ∧
    (BulkDeleteTickets fixState "t1" [oid1, "not-an-id"] 0).2 = 1 := by
  refine ⟨?_, ?_, ?_, bulk_skip_semantics.2.2.2.2⟩
  · exact (bulk_skip_semantics.1 fixState "t1" "zz" [] 0 (by decide)).1
  · exact (bulk_skip_semantics.2.1 fixState "t1" (toHex24 3) 3 [] 0 (by decide) (by decide)).1
  · exact bulk_skip_semantics.2.2.1 fixState "t9" oid1 1 fixTicket [] 0 (by decide) (by decide)
      (by decide)

/-! ## Claim C5: the history audit trail -/

theorem history_createHistory (s : State) (tid : Nat) (tn ac f ov nv cb cbn cm : String) :
    (createHistory s tid tn ac f ov nv cb cbn cm).history
      = s.history ++ [{ ticketID := tid, tenantID := tn, action := ac, field := f,
                        oldValue := ov, newValue := nv, changedBy := cb,
                        changedByName := cbn, comment := cm }] := rfl

theorem history_ticketUpdate (s : State) (id : Nat) (t : Ticket) (now : Nat) :
    (ticketUpdate s id t now).history = s.history := rfl

theorem history_ticketCreate (s : State) (t : Ticket) (now : Nat) :
    (ticketCreate s t now).1.history = s.history := rfl

theorem history_getNextTicketNumber (s : State) (tn : String) :
    (getNextTicketNumber s tn).1.history = s.history := rfl

theorem history_deptIncTicketCount (s : State) (d : Nat) (o : Bool) (now : Nat) :
    (deptIncTicketCount s d o now).history = s.history := rfl

theorem history_deptIncOpt (s : State) (o : Option Nat) (now : Nat) :
    (match o with
     | some d => deptIncTicketCount s d true now
     | none => s).history = s.history := by
  cases o <;> rfl

theorem history_deptDecOpt (s : State) (o : Option Nat) (now : Nat) :
    (match o with
     | some d => deptDecOpenTickets s d now
     | none => s).history = s.history := by
  cases o <;> rfl

theorem history_agentDecIf (s : State) (c : Prop) [Decidable c] (k : Nat) (now : Nat) :
    (if c then agentDecTicketCount s k now else s).history = s.history := by
  split <;> rfl

theorem history_applyStatusSideEffects (s : State) (t : Ticket) (old : TicketStatus)
    (now : Nat) : ((applyStatusSideEffects s t old now).1).history = s.history := by
  unfold applyStatusSideEffects
  split <;> (try dsimp only) <;> (repeat' split) <;> rfl

theorem history_autoAssign_eq (s : State) (tid : Nat) (t : Ticket) (now : Nat) :
    (autoAssign s tid t now).1.history
      = s.history ++ (match pickLeastBusy s t.tenantID t.departmentID with
        | none => []
        | some p => [{ ticketID := tid, tenantID := t.tenantID, action := "auto_assigned",
                       field := "assignee", oldValue := "", newValue := p.2.name,
                       changedBy := "system", changedByName := "System", comment := "" }]) := by
  unfold autoAssign
  split
  · rename_i hplb
    rw [hplb]
    simp
  · rename_i p hplb
    rw [hplb]
    rfl

theorem history_assign_ok (s : State) (id : String) (req : AssignTicketRequest)
    (a b : String) (now : Nat) (s' : State) (t' : Ticket)
    (h : AssignTicket s id req a b now = .ok (s', t')) :
    ∃ e, s'.history = s.history ++ [e] := by
  unfold AssignTicket at h
  split at h
  · cases h
  · split at h
    · cases h
    · split at h
      · cases h
      · simp only [Except.ok.injEq, Prod.mk.injEq] at h
        obtain ⟨hs, -⟩ := h
        subst hs
        split <;> exact ⟨_, rfl⟩

theorem transferChain_keeps (sK : State) (base : List TicketHistory) (e1 : TicketHistory)
    (hK : sK.history = base ++ [e1]) (id : String) (req : TransferTicketRequest)
    (u un : String) (tid : Nat) (t : Ticket) (now : Nat) :
    ∃ h, (transferChain sK id req u un tid t now).1.history = base ++ h ∧
      base.length < ((transferChain sK id req u un tid t now).1).history.length := by
  unfold transferChain
  split
  · cases hAT : AssignTicket sK id { assigneeID := req.assigneeID } u un now with
    | ok v =>
      obtain ⟨v1, v2⟩ := v
      obtain ⟨e2, he2⟩ := history_assign_ok _ _ _ _ _ _ _ _ hAT
      refine ⟨[e1, e2], ?_, ?_⟩
      · simp [he2, hK]
      · simp [he2, hK]
    | error e =>
      exact ⟨[e1], hK, by simp [hK]⟩
  · split
    · simp only [history_autoAssign_eq, hK, List.append_assoc]
      refine ⟨_, rfl, ?_⟩
      simp only [List.length_append, List.length_cons, List.length_nil]
      omega
    · exact ⟨[e1], hK, by simp [hK]⟩

/-- Claim C5 amended: create, update, change-status, assign and
transfer append history entries on success (create, change-status,
assign and transfer at least one; update one per tracked changed
field), while add-reply, rate and delete append none; history is
append-only in every case. -/
theorem history_audit_trail :
    (∀ (s : State) (req : CreateTicketRequest) (a b c : String) (now : Nat),
      req.subject ≠ "" → req.description ≠ "" →
      match CreateTicket s req a b c now with
      | .ok v => ∃ h, v.1.history = s.history ++ h ∧ s.history.length < v.1.history.length
      | .error _ => False) ∧
    (∀ (s : State) (id : String) (req : UpdateTicketRequest) (a b : String) (ag : Bool)
        (now : Nat) (tid : Nat) (t0 : Ticket),
      parseOID id = some tid → ticketGetByID s tid = some t0 →
      ¬(ag = false ∧ t0.customerID ≠ a) →
      match UpdateTicket s id req a b ag now with
      | .ok v => ∃ h, v.1.history = s.history ++ h
      | .error _ => False) ∧
    (∀ (s : State) (id : String) (req : ChangeStatusRequest) (a b : String) (ag : Bool)
        (now : Nat) (tid : Nat) (t0 : Ticket),
      parseOID id = some tid → ticketGetByID s tid = some t0 →
      isValidStatusTransition t0.status req.status ag = true →
      match ChangeStatus s id req a b ag now with
      | .ok v => ∃ e, v.1.history = s.history ++ [e]
      | .error _ => False) ∧
    (∀ (s : State) (id : String) (req : AssignTicketRequest) (a b : String) (now : Nat)
        (s' : State) (t' : Ticket), AssignTicket s id req a b now = .ok (s', t') →
      ∃ e, s'.history = s.history ++ [e]) ∧
    (∀ (s : State) (id : String) (req : TransferTicketRequest) (a b : String) (now : Nat)
        (tid : Nat) (t0 : Ticket) (d : Nat) (dept : Department),
      parseOID id = some tid → ticketGetByID s tid = some t0 →
      parseOID req.departmentID = some d → deptGetByID s d = some dept →
      match TransferTicket s id req a b now with
      | .ok v => ∃ h, v.1.history = s.history ++ h ∧ s.history.length < v.1.history.length
      | .error _ => False) ∧
    (∀ (s : State) (id : String) (req : CreateMessageRequest) (a b c : String)
        (st : SenderType) (now : Nat) (s' : State) (m : TicketMessage),
      AddReply s id req a b c st now = .ok (s', m) → s'.history = s.history) ∧
    (∀ (s : State) (id : String) (req : RateTicketRequest) (a : String) (now : Nat)
        (s' : State) (t' : Ticket), RateTicket s id req a now = .ok (s', t') →
      s'.history = s.history) ∧
    (∀ (s : State) (id : String) (a : String) (now : Nat) (s' : State),
      DeleteTicket s id a now = .ok s' → s'.history = s.history) := by
  refine ⟨?_, ?_, ?_, ?_, ?_, ?_, ?_, ?_⟩
  · intro s req a b c now hsub hdesc
    simp only [CreateTicket, if_neg hsub, if_neg hdesc]
    split
    · rename_i v heq
      split at heq
      · simp only [Except.ok.injEq] at heq
        subst heq
        simp only [history_autoAssign_eq, history_createHistory, history_deptIncOpt,
          history_ticketCreate, history_getNextTicketNumber, List.append_assoc]
        refine ⟨_, rfl, ?_⟩
        simp only [List.length_append, List.length_cons, List.length_nil]
        omega
      · simp only [Except.ok.injEq] at heq
        subst heq
        simp only [history_createHistory, history_deptIncOpt, history_ticketCreate,
          history_getNextTicketNumber]
        refine ⟨_, rfl, ?_⟩
        simp only [List.length_append, List.length_cons, List.length_nil]
        omega
    · rename_i e heq
      split at heq <;> cases heq
  · intro s id req a b ag now tid t0 hp hg hauth
    simp only [UpdateTicket, getTicket_ok hp hg, if_neg hauth]
    rw [history_foldl_createHistory, history_ticketUpdate]
    exact ⟨_, rfl⟩
  · intro s id req a b ag now tid t0 hp hg hval
    have hne : ¬(isValidStatusTransition t0.status req.status ag = false) := by
      simp [hval]
    simp only [ChangeStatus, getTicket_ok hp hg, if_neg hne]
    simp only [history_createHistory, history_ticketUpdate, history_applyStatusSideEffects]
    exact ⟨_, rfl⟩
  · exact history_assign_ok
  · intro s id req a b now tid t0 d dept hp hg hpd hdg
    simp only [TransferTicket, getTicket_ok hp hg, hpd, hdg]
    exact transferChain_keeps _ s.history
      { ticketID := tid, tenantID := t0.tenantID, action := "transferred",
        field := "department", oldValue := t0.departmentName, newValue := dept.name,
        changedBy := a, changedByName := b, comment := req.comment }
      (by simp only [history_createHistory, history_ticketUpdate,
            history_deptIncTicketCount, history_agentDecIf, history_deptDecOpt])
      id req a b tid _ now
  · intro s id req a b c st now s' m h
    unfold AddReply at h
    split at h
    · cases h
    · simp only [Except.ok.injEq, Prod.mk.injEq] at h
      obtain ⟨hs, -⟩ := h
      subst hs
      rfl
  · intro s id req a now s' t' h
    unfold RateTicket at h
    split at h
    · cases h
    · split at h
      · cases h
      · split at h
        · cases h
        · simp only [Except.ok.injEq, Prod.mk.injEq] at h
          obtain ⟨hs, -⟩ := h
          subst hs
          split
          · split <;> rfl
          · rfl
  · intro s id a now s' h
    unfold DeleteTicket at h
    split at h
    · cases h
    · simp only [Except.ok.injEq] at h
      subst h
      (repeat' split) <;> rfl


/-- Claim C5 counterexample: a successful `DeleteTicket` is a
state-affecting operation that writes no history entry at all,
refuting the claim that every state-affecting operation appends
one. -/
theorem deleteTicket_writes_no_history :
    (DeleteTicket fixState oid1 "adm" 0).toOption.map State.history = some [] ∧
    fixState.history = [] := ⟨by decide, rfl⟩

theorem history_audit_trail_witness :
    (match CreateTicket fixState
        { tenantID := "t1", subject := "Help", description := "Broken" } "c" "C" "e" 5 with
     | .ok v => ∃ h, v.1.history = fixState.history ++ h ∧
         fixState.history.length < v.1.history.length
     | .error _ => False) ∧
    (match ChangeStatus fixState oid1 { status := StatusResolved } "u" "U" true 7 with
     | .ok v => ∃ e, v.1.history = fixState.history ++ [e]
     | .error _ => False) :=
  ⟨history_audit_trail.1 fixState _ "c" "C" "e" 5 (by decide) (by decide),
   history_audit_trail.2.2.1 fixState oid1 _ "u" "U" true 7 1 fixTicket (by decide)
     (by decide) (by decide)⟩

/-! ## Claim C4: bulk counter updates -/

theorem bulkStatusGo_counters (ids : List String) (s : State) (st : TicketStatus)
    (cb cbn : String) (now count : Nat) :
    (bulkStatusGo s ids st cb cbn now count).1.agents = s.agents ∧
    (bulkStatusGo s ids st cb cbn now count).1.departments = s.departments := by
  induction ids generalizing s count with
  | nil => exact ⟨rfl, rfl⟩
  | cons idStr rest ih =>
    simp only [bulkStatusGo]
    cases parseOID idStr with
    | none => exact ih s count
    | some tid =>
      dsimp only
      cases ticketGetByID s tid with
      | none => exact ih s count
      | some t => exact ih _ _

theorem bulkPriorityGo_counters (ids : List String) (s : State) (pr : TicketPriority)
    (cb cbn : String) (now count : Nat) :
    (bulkPriorityGo s ids pr cb cbn now count).1.agents = s.agents ∧
    (bulkPriorityGo s ids pr cb cbn now count).1.departments = s.departments := by
  induction ids generalizing s count with
  | nil => exact ⟨rfl, rfl⟩
  | cons idStr rest ih =>
    simp only [bulkPriorityGo]
    cases parseOID idStr with
    | none => exact ih s count
    | some tid =>
      dsimp only
      cases ticketGetByID s tid with
      | none => exact ih s count
      | some t => exact ih _ _

theorem bulkAssignGo_departments (ids : List String) (s : State) (aid : Nat) (agent : Agent)
    (cb cbn : String) (now count : Nat) :
    (bulkAssignGo s ids aid agent cb cbn now count).1.departments = s.departments := by
  induction ids generalizing s count with
  | nil => rfl
  | cons idStr rest ih =>
    simp only [bulkAssignGo]
    cases parseOID idStr with
    | none => exact ih s count
    | some tid =>
      dsimp only
      cases ticketGetByID s tid with
      | none => exact ih s count
      | some t => exact ih _ _

theorem bulkTransferGo_agents (ids : List String) (s : State) (deptID : Nat)
    (dept : Department) (cb cbn : String) (now count : Nat) :
    (bulkTransferGo s ids deptID dept cb cbn now count).1.agents = s.agents := by
  induction ids generalizing s count with
  | nil => rfl
  | cons idStr rest ih =>
    simp only [bulkTransferGo]
    cases parseOID idStr with
    | none => exact ih s count
    | some tid =>
      dsimp only
      cases ticketGetByID s tid with
      | none => exact ih s count
      | some t =>
        dsimp only
        cases t.departmentID with
        | none => exact ih _ _
        | some od => exact ih _ _

/-- Claim C4 counterexample: the bulk status change to resolved performs
none of the counter updates the single-item `ChangeStatus` performs on
the same ticket — the department open counter stays at 1 under the bulk
operation but drops to 0 under the single operation. -/
theorem bulkChangeStatus_skips_counter_updates :
    (findBy 10 (BulkChangeStatus fixState "t1" [oid1] StatusResolved "cb" "CB" 100).1.departments).map
        Department.openTickets = some 1 ∧
    (ChangeStatus fixState oid1 { status := StatusResolved } "u" "U" true 100).toOption.map
        (fun p => (findBy 10 p.1.departments).map Department.openTickets) = some (some 0) := by
  constructor
  · decide
  · decide

/-- Claim C4 amended: the bulk operations do not replicate the single-item
counter updates.  `BulkChangeStatus` and `BulkChangePriority` leave every
agent and department document unchanged for all inputs; a successful
`BulkAssignTickets` leaves every department unchanged; a successful
`BulkTransferDepartment` leaves every agent unchanged; and
`BulkDeleteTickets` decrements the department open counter even for a
resolved ticket, for which the single-item `DeleteTicket` leaves it
alone. -/
theorem bulk_counter_divergence :
    (∀ s tn ids st cb cbn now,
       (BulkChangeStatus s tn ids st cb cbn now).1.agents = s.agents ∧
       (BulkChangeStatus s tn ids st cb cbn now).1.departments = s.departments) ∧
    (∀ s tn ids pr cb cbn now,
       (BulkChangePriority s tn ids pr cb cbn now).1.agents = s.agents ∧
       (BulkChangePriority s tn ids pr cb cbn now).1.departments = s.departments) ∧
    (∀ s tn ids ag cb cbn now,
       match BulkAssignTickets s tn ids ag cb cbn now with
       | .ok p => p.1.departments = s.departments
       | .error _ => True) ∧
    (∀ s tn ids d cb cbn now,
       match BulkTransferDepartment s tn ids d cb cbn now with
       | .ok p => p.1.agents = s.agents
       | .error _ => True) ∧
    ((findBy 10 (BulkDeleteTickets fixResolvedState "t1" [oid1] 100).1.departments).map
        Department.openTickets = some 0 ∧
     (DeleteTicket fixResolvedState oid1 "del" 100).toOption.map
        (fun s => (findBy 10 s.departments).map Department.openTickets) = some (some 1)) := by
  refine ⟨?_, ?_, ?_, ?_, ?_, ?_⟩
  · intro s tn ids st cb cbn now
    exact bulkStatusGo_counters ids s st cb cbn now 0
  · intro s tn ids pr cb cbn now
    exact bulkPriorityGo_counters ids s pr cb cbn now 0
  · intro s tn ids ag cb cbn now
    simp only [BulkAssignTickets]
    cases agentGetByUserID s tn ag with
    | none => exact trivial
    | some p => exact bulkAssignGo_departments ids s p.1 p.2 cb cbn now 0
  · intro s tn ids d cb cbn now
    simp only [BulkTransferDepartment]
    cases parseOID d with
    | none => exact trivial
    | some dd =>
      dsimp only
      cases deptGetByID s dd with
      | none => exact trivial
      | some dept => exact bulkTransferGo_agents ids s dd dept cb cbn now 0
  · decide
  · decide

/-! ## Claim C10: counters never negative -/

theorem updBy_mem_cases {k : Nat} {f : α → α} {l : List (Nat × α)} {p : Nat × α}
    (h : p ∈ updBy k f l) : p ∈ l ∨ ∃ q, q ∈ l ∧ p = (q.1, f q.2) := by
  rcases List.mem_map.mp h with ⟨q, hq, hmap⟩
  by_cases hk : q.1 = k
  · exact Or.inr ⟨q, hq, by rw [← hmap]; simp only [if_pos hk]⟩
  · exact Or.inl (by rw [← hmap]; simp only [if_neg hk]; exact hq)

theorem nonneg_frame {s : State} (h : NonnegInv s) {s' : State}
    (ha : s'.agents = s.agents) (hd : s'.departments = s.departments) : NonnegInv s' :=
  ⟨fun q hq => h.1 q (ha ▸ hq), fun q hq => h.2 q (hd ▸ hq)⟩

theorem nonneg_agents_updBy {l : List (Nat × Agent)} {k : Nat} {f : Agent → Agent}
    (hf : ∀ a, 0 ≤ a.currentTickets → 0 ≤ (f a).currentTickets)
    (h : ∀ q ∈ l, 0 ≤ q.2.currentTickets) :
    ∀ q ∈ updBy k f l, 0 ≤ q.2.currentTickets := by
  intro q hq
  rcases updBy_mem_cases hq with hl | ⟨r, hr, rfl⟩
  · exact h q hl
  · exact hf r.2 (h r hr)

theorem nonneg_depts_updBy {l : List (Nat × Department)} {k : Nat}
    {f : Department → Department}
    (hf : ∀ d, 0 ≤ d.openTickets → 0 ≤ (f d).openTickets)
    (h : ∀ q ∈ l, 0 ≤ q.2.openTickets) :
    ∀ q ∈ updBy k f l, 0 ≤ q.2.openTickets := by
  intro q hq
  rcases updBy_mem_cases hq with hl | ⟨r, hr, rfl⟩
  · exact h q hl
  · exact hf r.2 (h r hr)

theorem nonneg_agentInc {s : State} (h : NonnegInv s) (k now : Nat) :
    NonnegInv (agentIncTicketCount s k now) := by
  refine ⟨?_, h.2⟩
  show ∀ q ∈ updBy k (fun a => { a with currentTickets := a.currentTickets + 1, ticketsToday := a.ticketsToday + 1 }) s.agents, 0 ≤ q.2.currentTickets
  refine nonneg_agents_updBy ?_ h.1
  intro a ha
  dsimp only
  omega

theorem nonneg_agentDec {s : State} (h : NonnegInv s) (k now : Nat) :
    NonnegInv (agentDecTicketCount s k now) := by
  refine ⟨?_, h.2⟩
  show ∀ q ∈ updBy k (fun a =>
    if a.currentTickets > 0 then { a with currentTickets := a.currentTickets - 1 } else a)
    s.agents, 0 ≤ q.2.currentTickets
  refine nonneg_agents_updBy ?_ h.1
  intro a ha
  dsimp only
  split
  · rename_i hgt
    dsimp only
    omega
  · exact ha

theorem nonneg_agentIncResolved {s : State} (h : NonnegInv s) (k now : Nat) :
    NonnegInv (agentIncResolved s k now) := by
  refine ⟨?_, h.2⟩
  show ∀ q ∈ updBy k (fun a => { a with totalResolved := a.totalResolved + 1 }) s.agents,
    0 ≤ q.2.currentTickets
  refine nonneg_agents_updBy ?_ h.1
  intro a ha
  exact ha

theorem nonneg_agentSetAvgRating {s : State} (h : NonnegInv s) (k : Nat) (r : Rat) :
    NonnegInv (agentSetAvgRating s k r) := by
  refine ⟨?_, h.2⟩
  show ∀ q ∈ updBy k (fun a => { a with avgRating := r }) s.agents,
    0 ≤ q.2.currentTickets
  refine nonneg_agents_updBy ?_ h.1
  intro a ha
  exact ha

theorem nonneg_deptInc {s : State} (h : NonnegInv s) (k : Nat) (o : Bool) (now : Nat) :
    NonnegInv (deptIncTicketCount s k o now) := by
  refine ⟨h.1, ?_⟩
  show ∀ q ∈ updBy k (fun d => { d with totalTickets := d.totalTickets + 1, openTickets := if o then d.openTickets + 1 else d.openTickets }) s.departments, 0 ≤ q.2.openTickets
  refine nonneg_depts_updBy ?_ h.2
  intro d hd
  dsimp only
  split <;> omega

theorem nonneg_deptDec {s : State} (h : NonnegInv s) (k now : Nat) :
    NonnegInv (deptDecOpenTickets s k now) := by
  refine ⟨h.1, ?_⟩
  show ∀ q ∈ updBy k (fun d =>
    if d.openTickets > 0 then { d with openTickets := d.openTickets - 1 } else d)
    s.departments, 0 ≤ q.2.openTickets
  refine nonneg_depts_updBy ?_ h.2
  intro d hd
  dsimp only
  split
  · rename_i hgt
    dsimp only
    omega
  · exact hd

theorem nonneg_deptDecOpt {s : State} (h : NonnegInv s) (o : Option Nat) (now : Nat) :
    NonnegInv (match o with | some d => deptDecOpenTickets s d now | none => s) := by
  cases o with
  | none => exact h
  | some d => exact nonneg_deptDec h d now

theorem nonneg_deptIncOpt {s : State} (h : NonnegInv s) (o : Option Nat) (now : Nat) :
    NonnegInv (match o with | some d => deptIncTicketCount s d true now | none => s) := by
  cases o with
  | none => exact h
  | some d => exact nonneg_deptInc h d true now

theorem nonneg_agentDecIf {s : State} (h : NonnegInv s) (c : Prop) [Decidable c]
    (k now : Nat) : NonnegInv (if c then agentDecTicketCount s k now else s) := by
  split
  · exact nonneg_agentDec h k now
  · exact h

theorem nonneg_ticketUpdate {s : State} (h : NonnegInv s) (id : Nat) (t : Ticket)
    (now : Nat) : NonnegInv (ticketUpdate s id t now) := ⟨h.1, h.2⟩

theorem nonneg_ticketUpdateFields {s : State} (h : NonnegInv s) (id : Nat)
    (f : Ticket → Ticket) (now : Nat) : NonnegInv (ticketUpdateFields s id f now) :=
  ⟨h.1, h.2⟩

theorem nonneg_ticketSoftDelete {s : State} (h : NonnegInv s) (id : Nat) (db : String)
    (now : Nat) : NonnegInv (ticketSoftDelete s id db now) := ⟨h.1, h.2⟩

theorem nonneg_ticketIncMsg {s : State} (h : NonnegInv s) (id : Nat) (b : Bool)
    (now : Nat) : NonnegInv (ticketIncrementMessageCount s id b now) := ⟨h.1, h.2⟩

theorem nonneg_ticketCreate1 {s : State} (h : NonnegInv s) (t : Ticket) (now : Nat) :
    NonnegInv (ticketCreate s t now).1 := ⟨h.1, h.2⟩

theorem nonneg_getNext1 {s : State} (h : NonnegInv s) (tn : String) :
    NonnegInv (getNextTicketNumber s tn).1 := ⟨h.1, h.2⟩

theorem nonneg_historyAdd {s : State} (h : NonnegInv s) (e : TicketHistory) :
    NonnegInv (historyAdd s e) := ⟨h.1, h.2⟩

theorem nonneg_messageAdd {s : State} (h : NonnegInv s) (m : TicketMessage) :
    NonnegInv (messageAdd s m) := ⟨h.1, h.2⟩

theorem nonneg_createHistory {s : State} (h : NonnegInv s) (tid : Nat)
    (tn ac f ov nv cb cbn cm : String) :
    NonnegInv (createHistory s tid tn ac f ov nv cb cbn cm) := ⟨h.1, h.2⟩

theorem nonneg_foldl_createHistory {x : State} (h : NonnegInv x) (tid : Nat) (tn : String)
    (userID userName : String) (l : List Chg) :
    NonnegInv (l.foldl
      (fun s ch => createHistory s tid tn "updated" ch.1 ch.2.1 ch.2.2 userID userName "")
      x) := by
  induction l generalizing x with
  | nil => exact h
  | cons c rest ih => exact ih (nonneg_createHistory h _ _ _ _ _ _ _ _ _)

theorem nonneg_applyStatusSideEffects {s : State} (h : NonnegInv s) (t : Ticket)
    (old : TicketStatus) (now : Nat) :
    NonnegInv (applyStatusSideEffects s t old now).1 := by
  unfold applyStatusSideEffects
  split
  · dsimp only
    refine nonneg_deptDecOpt ?_ _ _
    split
    · exact nonneg_agentDec (nonneg_agentIncResolved h _ _) _ _
    · exact h
  · dsimp only
    split
    · exact nonneg_deptDecOpt (nonneg_agentDecIf h _ _ _) _ _
    · exact h
  · dsimp only
    exact nonneg_deptIncOpt h _ _
  · exact h

theorem nonneg_autoAssign {s : State} (h : NonnegInv s) (tid : Nat) (t : Ticket)
    (now : Nat) : NonnegInv (autoAssign s tid t now).1 := by
  unfold autoAssign
  split
  · exact h
  · exact nonneg_createHistory (nonneg_agentInc (nonneg_ticketUpdate h _ _ _) _ _)
      _ _ _ _ _ _ _ _ _

theorem nonneg_CreateTicket {s : State} (h : NonnegInv s) {req : CreateTicketRequest}
    {a b c : String} {now : Nat} {v : State × Nat × Ticket}
    (heq : CreateTicket s req a b c now = .ok v) : NonnegInv v.1 := by
  simp only [CreateTicket] at heq
  split at heq
  · cases heq
  · split at heq
    · cases heq
    · split at heq
      · simp only [Except.ok.injEq] at heq
        subst heq
        exact nonneg_autoAssign (nonneg_createHistory (nonneg_deptIncOpt
          (nonneg_ticketCreate1 (nonneg_getNext1 h _) _ _) _ _) _ _ _ _ _ _ _ _ _) _ _ _
      · simp only [Except.ok.injEq] at heq
        subst heq
        exact nonneg_createHistory (nonneg_deptIncOpt
          (nonneg_ticketCreate1 (nonneg_getNext1 h _) _ _) _ _) _ _ _ _ _ _ _ _ _

theorem nonneg_UpdateTicket {s : State} (h : NonnegInv s) {id : String}
    {req : UpdateTicketRequest} {a b : String} {ag : Bool} {now : Nat}
    {v : State × Ticket} (heq : UpdateTicket s id req a b ag now = .ok v) :
    NonnegInv v.1 := by
  unfold UpdateTicket at heq
  split at heq
  · cases heq
  · split at heq
    · cases heq
    · simp only [Except.ok.injEq] at heq
      subst heq
      exact nonneg_foldl_createHistory (nonneg_ticketUpdate h _ _ _) _ _ _ _ _

theorem nonneg_ChangeStatus {s : State} (h : NonnegInv s) {id : String}
    {req : ChangeStatusRequest} {a b : String} {ag : Bool} {now : Nat}
    {v : State × Ticket} (heq : ChangeStatus s id req a b ag now = .ok v) :
    NonnegInv v.1 := by
  unfold ChangeStatus at heq
  split at heq
  · cases heq
  · split at heq
    · cases heq
    · simp only [Except.ok.injEq] at heq
      subst heq
      exact nonneg_createHistory (nonneg_ticketUpdate
        (nonneg_applyStatusSideEffects h _ _ _) _ _ _) _ _ _ _ _ _ _ _ _

theorem nonneg_AssignTicket {s : State} (h : NonnegInv s) {id : String}
    {req : AssignTicketRequest} {a b : String} {now : Nat} {v : State × Ticket}
    (heq : AssignTicket s id req a b now = .ok v) : NonnegInv v.1 := by
  unfold AssignTicket at heq
  split at heq
  · cases heq
  · split at heq
    · cases heq
    · split at heq
      · cases heq
      · simp only [Except.ok.injEq] at heq
        subst heq
        exact nonneg_createHistory (nonneg_agentInc (nonneg_ticketUpdate
          (nonneg_agentDecIf h _ _ _) _ _ _) _ _) _ _ _ _ _ _ _ _ _

theorem nonneg_transferChain {sK : State} (h : NonnegInv sK) (id : String)
    (req : TransferTicketRequest) (u un : String) (tid : Nat) (t : Ticket) (now : Nat) :
    NonnegInv (transferChain sK id req u un tid t now).1 := by
  unfold transferChain
  split
  · cases hAT : AssignTicket sK id { assigneeID := req.assigneeID } u un now with
    | ok v =>
      obtain ⟨v1, v2⟩ := v
      show NonnegInv v1
      exact nonneg_AssignTicket h hAT
    | error e => exact h
  · split
    · exact nonneg_autoAssign h _ _ _
    · exact h

theorem nonneg_TransferTicket {s : State} (h : NonnegInv s) {id : String}
    {req : TransferTicketRequest} {a b : String} {now : Nat} {v : State × Ticket}
    (heq : TransferTicket s id req a b now = .ok v) : NonnegInv v.1 := by
  unfold TransferTicket at heq
  split at heq
  · cases heq
  · split at heq
    · cases heq
    · split at heq
      · cases heq
      · simp only [Except.ok.injEq] at heq
        subst heq
        exact nonneg_transferChain (nonneg_createHistory (nonneg_ticketUpdate
          (nonneg_deptInc (nonneg_agentDecIf (nonneg_deptDecOpt h _ _) _ _ _) _ _ _)
          _ _ _) _ _ _ _ _ _ _ _ _) _ _ _ _ _ _ _

theorem nonneg_AddReply {s : State} (h : NonnegInv s) {id : String}
    {req : CreateMessageRequest} {a b c : String} {st : SenderType} {now : Nat}
    {v : State × TicketMessage} (heq : AddReply s id req a b c st now = .ok v) :
    NonnegInv v.1 := by
  unfold AddReply at heq
  split at heq
  · cases heq
  · simp only [Except.ok.injEq] at heq
    subst heq
    exact nonneg_ticketUpdateFields (nonneg_ticketIncMsg (nonneg_messageAdd h _) _ _ _)
      _ _ _

theorem nonneg_RateTicket {s : State} (h : NonnegInv s) {id : String}
    {req : RateTicketRequest} {u : String} {now : Nat} {v : State × Ticket}
    (heq : RateTicket s id req u now = .ok v) : NonnegInv v.1 := by
  unfold RateTicket at heq
  split at heq
  · cases heq
  · split at heq
    · cases heq
    · split at heq
      · cases heq
      · simp only [Except.ok.injEq] at heq
        subst heq
        split
        · split
          · exact nonneg_agentSetAvgRating (nonneg_ticketUpdate h _ _ _) _ _
          · exact nonneg_ticketUpdate h _ _ _
        · exact nonneg_ticketUpdate h _ _ _

theorem nonneg_DeleteTicket {s : State} (h : NonnegInv s) {id : String} {a : String}
    {now : Nat} {s' : State} (heq : DeleteTicket s id a now = .ok s') :
    NonnegInv s' := by
  unfold DeleteTicket at heq
  split at heq
  · cases heq
  · simp only [Except.ok.injEq] at heq
    subst heq
    refine nonneg_ticketSoftDelete ?_ _ _ _
    split
    · split
      · exact nonneg_deptDec (nonneg_agentDecIf h _ _ _) _ _
      · exact nonneg_agentDecIf h _ _ _
    · exact nonneg_agentDecIf h _ _ _

theorem nonneg_bulkAssignGo (ids : List String) (aid : Nat) (agent : Agent)
    (cb cbn : String) (now : Nat) : ∀ (s : State) (count : Nat), NonnegInv s →
    NonnegInv (bulkAssignGo s ids aid agent cb cbn now count).1 := by
  induction ids with
  | nil => exact fun s count h => h
  | cons idStr rest ih =>
    intro s count h
    simp only [bulkAssignGo]
    cases parseOID idStr with
    | none => exact ih s count h
    | some tid =>
      dsimp only
      cases ticketGetByID s tid with
      | none => exact ih s count h
      | some t =>
        exact ih _ _ (nonneg_agentInc (nonneg_historyAdd
          (nonneg_ticketUpdateFields h _ _ _) _) _ _)

theorem nonneg_bulkTransferGo (ids : List String) (dID : Nat) (dept : Department)
    (cb cbn : String) (now : Nat) : ∀ (s : State) (count : Nat), NonnegInv s →
    NonnegInv (bulkTransferGo s ids dID dept cb cbn now count).1 := by
  induction ids with
  | nil => exact fun s count h => h
  | cons idStr rest ih =>
    intro s count h
    simp only [bulkTransferGo]
    cases parseOID idStr with
    | none => exact ih s count h
    | some tid =>
      dsimp only
      cases ticketGetByID s tid with
      | none => exact ih s count h
      | some t =>
        dsimp only
        cases t.departmentID with
        | none =>
          exact ih _ _ (nonneg_historyAdd (nonneg_deptInc
            (nonneg_ticketUpdateFields h _ _ _) _ _ _) _)
        | some od =>
          exact ih _ _ (nonneg_historyAdd (nonneg_deptInc (nonneg_deptDec
            (nonneg_ticketUpdateFields h _ _ _) _ _) _ _ _) _)

theorem nonneg_bulkDeleteGo (tn : String) (ids : List String) (now : Nat) :
    ∀ (s : State) (count : Nat), NonnegInv s →
    NonnegInv (bulkDeleteGo s tn ids now count).1 := by
  induction ids with
  | nil => exact fun s count h => h
  | cons idStr rest ih =>
    intro s count h
    simp only [bulkDeleteGo]
    cases parseOID idStr with
    | none => exact ih s count h
    | some tid =>
      dsimp only
      cases ticketGetByID s tid with
      | none => exact ih s count h
      | some t =>
        dsimp only
        split
        · exact ih s count h
        · refine ih _ _ ?_
          split
          · split
            · exact nonneg_agentDec (nonneg_deptDecOpt
                (nonneg_ticketSoftDelete h _ _ _) _ _) _ _
            · exact nonneg_deptDecOpt (nonneg_ticketSoftDelete h _ _ _) _ _
          · exact nonneg_deptDecOpt (nonneg_ticketSoftDelete h _ _ _) _ _

theorem nonneg_BulkAssignTickets {s : State} (h : NonnegInv s) {tn : String}
    {ids : List String} {ag cb cbn : String} {now : Nat} {p : State × Nat}
    (heq : BulkAssignTickets s tn ids ag cb cbn now = .ok p) : NonnegInv p.1 := by
  unfold BulkAssignTickets at heq
  split at heq
  · cases heq
  · simp only [Except.ok.injEq] at heq
    subst heq
    exact nonneg_bulkAssignGo ids _ _ cb cbn now s 0 h

theorem nonneg_BulkTransferDepartment {s : State} (h : NonnegInv s) {tn : String}
    {ids : List String} {d cb cbn : String} {now : Nat} {p : State × Nat}
    (heq : BulkTransferDepartment s tn ids d cb cbn now = .ok p) : NonnegInv p.1 := by
  unfold BulkTransferDepartment at heq
  split at heq
  · cases heq
  · split at heq
    · cases heq
    · simp only [Except.ok.injEq] at heq
      subst heq
      exact nonneg_bulkTransferGo ids _ _ cb cbn now s 0 h

theorem nonneg_runOp {s : State} (h : NonnegInv s) (op : Op) (now : Nat) :
    NonnegInv (runOp s op now) := by
  cases op with
  | create req a b c =>
    simp only [runOp]
    split
    · rename_i heq
      exact nonneg_CreateTicket h heq
    · exact h
  | update id req a b ag =>
    simp only [runOp]
    split
    · rename_i heq
      exact nonneg_UpdateTicket h heq
    · exact h
  | changeStatus id req a b ag =>
    simp only [runOp]
    split
    · rename_i heq
      exact nonneg_ChangeStatus h heq
    · exact h
  | assign id req a b =>
    simp only [runOp]
    split
    · rename_i heq
      exact nonneg_AssignTicket h heq
    · exact h
  | transfer id req a b =>
    simp only [runOp]
    split
    · rename_i heq
      exact nonneg_TransferTicket h heq
    · exact h
  | addReply id req a b c st =>
    simp only [runOp]
    split
    · rename_i heq
      exact nonneg_AddReply h heq
    · exact h
  | rate id req a =>
    simp only [runOp]
    split
    · rename_i heq
      exact nonneg_RateTicket h heq
    · exact h
  | delete id a =>
    simp only [runOp]
    split
    · rename_i heq
      exact nonneg_DeleteTicket h heq
    · exact h
  | bulkAssign tn ids ag cb cbn =>
    simp only [runOp]
    split
    · rename_i heq
      exact nonneg_BulkAssignTickets h heq
    · exact h
  | bulkStatus tn ids st cb cbn =>
    simp only [runOp, BulkChangeStatus]
    exact nonneg_frame h (bulkStatusGo_counters ids s st cb cbn now 0).1
      (bulkStatusGo_counters ids s st cb cbn now 0).2
  | bulkPriority tn ids pr cb cbn =>
    simp only [runOp, BulkChangePriority]
    exact nonneg_frame h (bulkPriorityGo_counters ids s pr cb cbn now 0).1
      (bulkPriorityGo_counters ids s pr cb cbn now 0).2
  | bulkTransfer tn ids d cb cbn =>
    simp only [runOp]
    split
    · rename_i heq
      exact nonneg_BulkTransferDepartment h heq
    · exact h
  | bulkDelete tn ids =>
    simp only [runOp, BulkDeleteTickets]
    exact nonneg_bulkDeleteGo tn ids now s 0 h

/-- Claim C10: the `currentTickets` counter of every agent and the
`openTickets` counter of every department stay non-negative across any
sequence of lifecycle and bulk operations — including sequences that
decrement more often than they incremented, such as deleting an
already-resolved ticket — because every decrement in the repository
layer is guarded by a `> 0` update filter. -/
theorem counters_never_negative (l : List (Op × Nat)) : ∀ (s : State), NonnegInv s →
    NonnegInv (runOps s l) := by
  induction l with
  | nil => exact fun s h => h
  | cons p rest ih =>
    intro s h
    obtain ⟨op, now⟩ := p
    exact ih _ (nonneg_runOp h op now)

theorem counters_never_negative_witness :
    NonnegInv (runOps fixNegState
      [(Op.delete oid1 "boss", 100), (Op.bulkDelete "t1" [oid1], 101)]) :=
  counters_never_negative _ fixNegState
    (by constructor <;> (intro q hq; rcases List.mem_singleton.mp hq with rfl; decide))

/-! ## Claim C2: department open-ticket counter conservation -/

theorem updBy_mem_strong {k : Nat} {f : α → α} {l : List (Nat × α)} {p : Nat × α}
    (h : p ∈ updBy k f l) :
    (p ∈ l ∧ p.1 ≠ k) ∨ ∃ q, q ∈ l ∧ q.1 = k ∧ p = (k, f q.2) := by
  rcases List.mem_map.mp h with ⟨q, hq, hmap⟩
  subst hmap
  by_cases hk : q.1 = k
  · exact Or.inr ⟨q, hq, hk, by rw [if_pos hk, hk]⟩
  · refine Or.inl ⟨?_, ?_⟩
    · simp only [if_neg hk]
      exact hq
    · simp only [if_neg hk]
      exact hk

theorem findBy_append_fresh {l : List (Nat × α)} {k : Nat} (a : α)
    (h : ∀ p ∈ l, p.1 ≠ k) : findBy k (l ++ [(k, a)]) = some a := by
  induction l with
  | nil => simp [findBy]
  | cons p t ih =>
    obtain ⟨x, y⟩ := p
    rw [List.cons_append, findBy]
    rw [if_neg (h (x, y) (List.mem_cons_self _ _))]
    exact ih (fun q hq => h q (List.mem_cons_of_mem _ hq))

theorem ticketGetByID_inv {s : State} {tid : Nat} {t : Ticket}
    (h : ticketGetByID s tid = some t) :
    findBy tid s.tickets = some t ∧ t.isDeleted = false := by
  unfold ticketGetByID at h
  split at h
  · rename_i t' hfind
    split at h
    · cases h
    · rename_i hdel
      cases h
      exact ⟨hfind, by simpa using hdel⟩
  · cases h

theorem cinv_updTicket_same {s : State} (h : CounterInv s) {tid : Nat} {t0 : Ticket}
    (hf : findBy tid s.tickets = some t0) (tf : Ticket → Ticket)
    (hsame : ∀ d, countedTicket d (tf t0) = countedTicket d t0)
    {s' : State} (htk : s'.tickets = updBy tid tf s.tickets)
    (hdp : s'.departments = s.departments) (hn : s'.nextOID = s.nextOID) :
    CounterInv s' := by
  obtain ⟨⟨hnd, hlt⟩, hD⟩ := h
  refine ⟨⟨?_, ?_⟩, ?_⟩
  · rw [htk, updBy_map_fst]
    exact hnd
  · rw [htk, hn]
    intro p hp
    rcases updBy_mem_strong hp with ⟨hl, -⟩ | ⟨q, hq, hk, rfl⟩
    · exact hlt p hl
    · exact hk ▸ hlt q hq
  · intro q hq
    rw [hdp] at hq
    have hcount := countP_updBy hnd hf (countedTicket q.1) tf
    rw [hsame q.1] at hcount
    simp only [openCount, htk]
    have hPP : (updBy tid tf s.tickets).countP (fun p => countedTicket q.1 p.2)
        = s.tickets.countP (fun p => countedTicket q.1 p.2) := by omega
    rw [hPP]
    exact hD q hq

theorem cinv_decSome {s : State} (h : CounterInv s) {tid : Nat} {t0 : Ticket}
    (hf : findBy tid s.tickets = some t0) (d0 : Nat)
    (hcnt : ∀ d, countedTicket d t0 = (d0 == d))
    (tf : Ticket → Ticket) (hcf : ∀ d, countedTicket d (tf t0) = false)
    {s' : State} (htk : s'.tickets = updBy tid tf s.tickets)
    (hdp : s'.departments = updBy d0 (fun dd =>
        if dd.openTickets > 0 then { dd with openTickets := dd.openTickets - 1 } else dd)
        s.departments)
    (hn : s'.nextOID = s.nextOID) : CounterInv s' := by
  obtain ⟨⟨hnd, hlt⟩, hD⟩ := h
  refine ⟨⟨?_, ?_⟩, ?_⟩
  · rw [htk, updBy_map_fst]
    exact hnd
  · rw [htk, hn]
    intro p hp
    rcases updBy_mem_strong hp with ⟨hl, -⟩ | ⟨q, hq, hk, rfl⟩
    · exact hlt p hl
    · exact hk ▸ hlt q hq
  · intro q hq
    rw [hdp] at hq
    simp only [openCount, htk]
    rcases updBy_mem_strong hq with ⟨hl, hne⟩ | ⟨r, hr, hk, rfl⟩
    · have ht0 : countedTicket q.1 t0 = false := by
        rw [hcnt q.1]
        exact beq_eq_false_iff_ne.mpr (Ne.symm hne)
      have hcount := countP_updBy hnd hf (countedTicket q.1) tf
      rw [hcf q.1, ht0] at hcount
      simp only [Bool.false_eq_true, if_false, Nat.add_zero] at hcount
      rw [hcount]
      exact hD q hl
    · have ht0 : countedTicket d0 t0 = true := by
        rw [hcnt d0]
        exact beq_self_eq_true d0
      have hpos : 0 < s.tickets.countP (fun p => countedTicket d0 p.2) :=
        countP_pos_of_findBy hf (countedTicket d0) ht0
      have hDr := hD r hr
      simp only [openCount] at hDr
      rw [hk] at hDr
      have hgt : r.2.openTickets > 0 := by
        rw [hDr]
        exact_mod_cast hpos
      have hcount := countP_updBy hnd hf (countedTicket d0) tf
      rw [hcf d0, ht0] at hcount
      simp only [Bool.false_eq_true, if_false, eq_self_iff_true, if_true, Nat.add_zero] at hcount
      dsimp only
      rw [if_pos hgt]
      dsimp only
      omega

theorem cinv_incSome {s : State} (h : CounterInv s) {tid : Nat} {t0 : Ticket}
    (hf : findBy tid s.tickets = some t0)
    (h0 : ∀ d, countedTicket d t0 = false) (dN : Nat)
    (tf : Ticket → Ticket) (hcf : ∀ d, countedTicket d (tf t0) = (dN == d))
    {s' : State} (htk : s'.tickets = updBy tid tf s.tickets)
    (hdp : s'.departments = updBy dN (fun dd =>
        { dd with totalTickets := dd.totalTickets + 1,
                  openTickets := dd.openTickets + 1 }) s.departments)
    (hn : s'.nextOID = s.nextOID) : CounterInv s' := by
  obtain ⟨⟨hnd, hlt⟩, hD⟩ := h
  refine ⟨⟨?_, ?_⟩, ?_⟩
  · rw [htk, updBy_map_fst]
    exact hnd
  · rw [htk, hn]
    intro p hp
    rcases updBy_mem_strong hp with ⟨hl, -⟩ | ⟨q, hq, hk, rfl⟩
    · exact hlt p hl
    · exact hk ▸ hlt q hq
  · intro q hq
    rw [hdp] at hq
    simp only [openCount, htk]
    rcases updBy_mem_strong hq with ⟨hl, hne⟩ | ⟨r, hr, hk, rfl⟩
    · have htN : countedTicket q.1 (tf t0) = false := by
        rw [hcf q.1]
        exact beq_eq_false_iff_ne.mpr (Ne.symm hne)
      have hcount := countP_updBy hnd hf (countedTicket q.1) tf
      rw [htN, h0 q.1] at hcount
      simp only [Bool.false_eq_true, if_false, Nat.add_zero] at hcount
      rw [hcount]
      exact hD q hl
    · have htN : countedTicket dN (tf t0) = true := by
        rw [hcf dN]
        exact beq_self_eq_true dN
      have hDr := hD r hr
      simp only [openCount] at hDr
      rw [hk] at hDr
      have hcount := countP_updBy hnd hf (countedTicket dN) tf
      rw [htN, h0 dN] at hcount
      simp only [Bool.false_eq_true, if_false, eq_self_iff_true, if_true, Nat.add_zero] at hcount
      dsimp only
      omega

theorem cinv_moveSome {s : State} (h : CounterInv s) {tid : Nat} {t0 : Ticket}
    (hf : findBy tid s.tickets = some t0) (d0 : Nat)
    (hcnt : ∀ d, countedTicket d t0 = (d0 == d)) (dN : Nat)
    (tf : Ticket → Ticket) (hcf : ∀ d, countedTicket d (tf t0) = (dN == d))
    {s' : State} (htk : s'.tickets = updBy tid tf s.tickets)
    (hdp : s'.departments = updBy dN (fun dd =>
        { dd with totalTickets := dd.totalTickets + 1,
                  openTickets := dd.openTickets + 1 })
      (updBy d0 (fun dd =>
        if dd.openTickets > 0 then { dd with openTickets := dd.openTickets - 1 } else dd)
        s.departments))
    (hn : s'.nextOID = s.nextOID) : CounterInv s' := by
  obtain ⟨⟨hnd, hlt⟩, hD⟩ := h
  have ht0 : countedTicket d0 t0 = true := by
    rw [hcnt d0]
    exact beq_self_eq_true d0
  have hpos : 0 < s.tickets.countP (fun p => countedTicket d0 p.2) :=
    countP_pos_of_findBy hf (countedTicket d0) ht0
  refine ⟨⟨?_, ?_⟩, ?_⟩
  · rw [htk, updBy_map_fst]
    exact hnd
  · rw [htk, hn]
    intro p hp
    rcases updBy_mem_strong hp with ⟨hl, -⟩ | ⟨q, hq, hk, rfl⟩
    · exact hlt p hl
    · exact hk ▸ hlt q hq
  · intro q hq
    rw [hdp] at hq
    simp only [openCount, htk]
    rcases updBy_mem_strong hq with ⟨hq1, hneN⟩ | ⟨r1, hr1, hk1, rfl⟩
    · -- untouched by the increment
      rcases updBy_mem_strong hq1 with ⟨hq2, hne0⟩ | ⟨r, hr, hk0, rfl⟩
      · -- untouched by both: q.1 ∉ {d0, dN}
        have hA : countedTicket q.1 t0 = false := by
          rw [hcnt q.1]
          exact beq_eq_false_iff_ne.mpr (Ne.symm hne0)
        have hB : countedTicket q.1 (tf t0) = false := by
          rw [hcf q.1]
          exact beq_eq_false_iff_ne.mpr (Ne.symm hneN)
        have hcount := countP_updBy hnd hf (countedTicket q.1) tf
        rw [hA, hB] at hcount
        simp only [Bool.false_eq_true, if_false, Nat.add_zero] at hcount
        rw [hcount]
        exact hD q hq2
      · -- decremented only: q.1 = d0 ≠ dN
        have hneN' : d0 ≠ dN := fun hEq => hneN hEq
        have hB : countedTicket d0 (tf t0) = false := by
          rw [hcf d0]
          exact beq_eq_false_iff_ne.mpr (Ne.symm hneN')
        have hDr := hD r hr
        simp only [openCount] at hDr
        rw [hk0] at hDr
        have hgt : r.2.openTickets > 0 := by
          rw [hDr]
          exact_mod_cast hpos
        have hcount := countP_updBy hnd hf (countedTicket d0) tf
        rw [hB, ht0] at hcount
        simp only [Bool.false_eq_true, if_false, eq_self_iff_true, if_true, Nat.add_zero] at hcount
        dsimp only
        rw [if_pos hgt]
        dsimp only
        omega
    · -- incremented: q = (dN, incf r1.2) with r1 ∈ updBy d0 decf s.departments
      rcases updBy_mem_strong hr1 with ⟨hq2, hne0⟩ | ⟨r, hr, hk0, rfl⟩
      · -- r1 untouched by the decrement: dN ≠ d0
        have hA : countedTicket dN t0 = false := by
          rw [hcnt dN]
          exact beq_eq_false_iff_ne.mpr (fun hh => hne0 (hk1.trans hh.symm))
        have htN : countedTicket dN (tf t0) = true := by
          rw [hcf dN]
          exact beq_self_eq_true dN
        have hDr := hD r1 hq2
        simp only [openCount] at hDr
        rw [hk1] at hDr
        have hcount := countP_updBy hnd hf (countedTicket dN) tf
        rw [hA, htN] at hcount
        simp only [Bool.false_eq_true, if_false, eq_self_iff_true, if_true, Nat.add_zero] at hcount
        dsimp only
        omega
      · -- r1 is the decremented d0 entry and dN = d0
        have hd0N : d0 = dN := hk1
        have htN : countedTicket dN (tf t0) = true := by
          rw [hcf dN]
          exact beq_self_eq_true dN
        have hDr := hD r hr
        simp only [openCount] at hDr
        rw [hk0] at hDr
        have hgt : r.2.openTickets > 0 := by
          rw [hDr]
          exact_mod_cast hpos
        have ht0N : countedTicket dN t0 = true := by
          rw [← hd0N]
          exact ht0
        have hcount := countP_updBy hnd hf (countedTicket dN) tf
        rw [htN, ht0N] at hcount
        simp only [eq_self_iff_true, if_true] at hcount
        dsimp only
        rw [if_pos hgt]
        dsimp only
        rw [hd0N] at hDr
        omega

theorem cinv_createNone {s : State} (h : CounterInv s) (tN : Ticket)
    (hcf : ∀ d, countedTicket d tN = false)
    {s' : State} (htk : s'.tickets = s.tickets ++ [(s.nextOID, tN)])
    (hdp : s'.departments = s.departments) (hn : s'.nextOID = s.nextOID + 1) :
    CounterInv s' := by
  obtain ⟨⟨hnd, hlt⟩, hD⟩ := h
  refine ⟨⟨?_, ?_⟩, ?_⟩
  · rw [htk]
    simp only [List.map_append, List.map_cons, List.map_nil]
    rw [List.nodup_append]
    refine ⟨hnd, List.nodup_singleton _, ?_⟩
    intro x hx hx2
    simp only [List.mem_singleton] at hx2
    subst hx2
    rcases List.mem_map.mp hx with ⟨p, hp, hpx⟩
    have := hlt p hp
    omega
  · rw [htk, hn]
    intro p hp
    rcases List.mem_append.mp hp with hp1 | hp2
    · exact Nat.lt_succ_of_lt (hlt p hp1)
    · simp only [List.mem_singleton] at hp2
      subst hp2
      exact Nat.lt_succ_self _
  · intro q hq
    rw [hdp] at hq
    simp only [openCount, htk, List.countP_append, List.countP_cons, List.countP_nil]
    rw [hcf q.1]
    simp only [Bool.false_eq_true, if_false, Nat.zero_add, Nat.add_zero]
    exact hD q hq

theorem cinv_createSome {s : State} (h : CounterInv s) (tN : Ticket) (d0 : Nat)
    (hcf : ∀ d, countedTicket d tN = (d0 == d))
    {s' : State} (htk : s'.tickets = s.tickets ++ [(s.nextOID, tN)])
    (hdp : s'.departments = updBy d0 (fun dd =>
        { dd with totalTickets := dd.totalTickets + 1,
                  openTickets := dd.openTickets + 1 }) s.departments)
    (hn : s'.nextOID = s.nextOID + 1) : CounterInv s' := by
  obtain ⟨⟨hnd, hlt⟩, hD⟩ := h
  refine ⟨⟨?_, ?_⟩, ?_⟩
  · rw [htk]
    simp only [List.map_append, List.map_cons, List.map_nil]
    rw [List.nodup_append]
    refine ⟨hnd, List.nodup_singleton _, ?_⟩
    intro x hx hx2
    simp only [List.mem_singleton] at hx2
    subst hx2
    rcases List.mem_map.mp hx with ⟨p, hp, hpx⟩
    have := hlt p hp
    omega
  · rw [htk, hn]
    intro p hp
    rcases List.mem_append.mp hp with hp1 | hp2
    · exact Nat.lt_succ_of_lt (hlt p hp1)
    · simp only [List.mem_singleton] at hp2
      subst hp2
      exact Nat.lt_succ_self _
  · intro q hq
    rw [hdp] at hq
    rcases updBy_mem_strong hq with ⟨hl, hne⟩ | ⟨r, hr, hk, rfl⟩
    · simp only [openCount, htk, List.countP_append, List.countP_cons, List.countP_nil]
      rw [hcf q.1, beq_eq_false_iff_ne.mpr (Ne.symm hne)]
      simp only [Bool.false_eq_true, if_false, Nat.zero_add, Nat.add_zero]
      exact hD q hl
    · dsimp only
      simp only [openCount, htk, List.countP_append, List.countP_cons, List.countP_nil]
      rw [hcf d0, beq_self_eq_true d0]
      simp only [eq_self_iff_true, if_true]
      have hDr := hD r hr
      simp only [openCount] at hDr
      rw [hk] at hDr
      omega

theorem calculateSLA_status (s : State) (t : Ticket) (now : Nat) :
    (calculateSLA s t now).status = t.status := by
  unfold calculateSLA
  (repeat' split) <;> rfl

theorem calculateSLA_isDeleted (s : State) (t : Ticket) (now : Nat) :
    (calculateSLA s t now).isDeleted = t.isDeleted := by
  unfold calculateSLA
  (repeat' split) <;> rfl

theorem calculateSLA_departmentID (s : State) (t : Ticket) (now : Nat) :
    (calculateSLA s t now).departmentID = t.departmentID := by
  unfold calculateSLA
  (repeat' split) <;> rfl

theorem countedTicket_calculateSLA (d : Nat) (s : State) (t : Ticket) (now : Nat) :
    countedTicket d (calculateSLA s t now) = countedTicket d t := by
  unfold calculateSLA
  (repeat' split) <;> rfl

theorem some_beq_some (a b : Nat) : ((some a : Option Nat) == some b) = (a == b) := by
  by_cases hab : a = b <;> simp [hab]

theorem buildNewTicket_status (s : State) (req : CreateTicketRequest)
    (cid cn ce tnum : String) (now : Nat) :
    (buildNewTicket s req cid cn ce tnum now).status = StatusOpen := by
  unfold buildNewTicket
  rw [calculateSLA_status]
  (repeat' split) <;> rfl

theorem buildNewTicket_isDeleted (s : State) (req : CreateTicketRequest)
    (cid cn ce tnum : String) (now : Nat) :
    (buildNewTicket s req cid cn ce tnum now).isDeleted = false := by
  unfold buildNewTicket
  rw [calculateSLA_isDeleted]
  (repeat' split) <;> rfl

theorem cinv_createHistory {s : State} (h : CounterInv s) (tid : Nat)
    (tn ac f ov nv cb cbn cm : String) :
    CounterInv (createHistory s tid tn ac f ov nv cb cbn cm) := ⟨h.1, h.2⟩

theorem cinv_historyAdd {s : State} (h : CounterInv s) (e : TicketHistory) :
    CounterInv (historyAdd s e) := ⟨h.1, h.2⟩

theorem cinv_messageAdd {s : State} (h : CounterInv s) (m : TicketMessage) :
    CounterInv (messageAdd s m) := ⟨h.1, h.2⟩

theorem cinv_agentIncTC {s : State} (h : CounterInv s) (k now : Nat) :
    CounterInv (agentIncTicketCount s k now) := ⟨h.1, h.2⟩

theorem cinv_agentDecTC {s : State} (h : CounterInv s) (k now : Nat) :
    CounterInv (agentDecTicketCount s k now) := ⟨h.1, h.2⟩

theorem cinv_agentIncRes {s : State} (h : CounterInv s) (k now : Nat) :
    CounterInv (agentIncResolved s k now) := ⟨h.1, h.2⟩

theorem cinv_agentSetAvg {s : State} (h : CounterInv s) (k : Nat) (r : Rat) :
    CounterInv (agentSetAvgRating s k r) := ⟨h.1, h.2⟩

theorem cinv_getNext1 {s : State} (h : CounterInv s) (tn : String) :
    CounterInv (getNextTicketNumber s tn).1 := ⟨h.1, h.2⟩

theorem cinv_agentDecIf {s : State} (h : CounterInv s) (c : Prop) [Decidable c]
    (k now : Nat) : CounterInv (if c then agentDecTicketCount s k now else s) := by
  split
  · exact cinv_agentDecTC h k now
  · exact h

theorem cinv_update_same2 {s : State} (h : CounterInv s) {tid : Nat} (t0 : Ticket)
    (hf : findBy tid s.tickets = some t0) (tnew : Ticket) (now : Nat)
    (hsame : ∀ d, countedTicket d tnew = countedTicket d t0) :
    CounterInv (ticketUpdate s tid tnew now) :=
  cinv_updTicket_same h hf (fun _ => { tnew with updatedAt := now }) (fun d => hsame d)
    rfl rfl rfl

theorem cinv_update_dec {s : State} (h : CounterInv s) {tid : Nat} (t0 : Ticket)
    (hf : findBy tid s.tickets = some t0) (d0 : Nat)
    (hcnt : ∀ d, countedTicket d t0 = (d0 == d)) (tnew : Ticket)
    (hcf : ∀ d, countedTicket d tnew = false) (now now2 : Nat) :
    CounterInv (ticketUpdate (deptDecOpenTickets s d0 now) tid tnew now2) :=
  cinv_decSome h hf d0 hcnt (fun _ => { tnew with updatedAt := now2 }) (fun d => hcf d)
    rfl rfl rfl

theorem cinv_update_inc {s : State} (h : CounterInv s) {tid : Nat} (t0 : Ticket)
    (hf : findBy tid s.tickets = some t0)
    (h0 : ∀ d, countedTicket d t0 = false) (dN : Nat) (tnew : Ticket)
    (hcf : ∀ d, countedTicket d tnew = (dN == d)) (now now2 : Nat) :
    CounterInv (ticketUpdate (deptIncTicketCount s dN true now) tid tnew now2) :=
  cinv_incSome h hf h0 dN (fun _ => { tnew with updatedAt := now2 }) (fun d => hcf d)
    rfl rfl rfl

theorem cinv_update_move {s : State} (h : CounterInv s) {tid : Nat} (t0 : Ticket)
    (hf : findBy tid s.tickets = some t0) (d0 : Nat)
    (hcnt : ∀ d, countedTicket d t0 = (d0 == d)) (dN : Nat) (tnew : Ticket)
    (hcf : ∀ d, countedTicket d tnew = (dN == d)) (now now2 now3 : Nat) :
    CounterInv (ticketUpdate (deptIncTicketCount (deptDecOpenTickets s d0 now) dN true now2)
      tid tnew now3) :=
  cinv_moveSome h hf d0 hcnt dN (fun _ => { tnew with updatedAt := now3 }) (fun d => hcf d)
    rfl rfl rfl

theorem cinv_update_move_agent {s : State} (h : CounterInv s) {tid : Nat} (t0 : Ticket)
    (hf : findBy tid s.tickets = some t0) (d0 : Nat)
    (hcnt : ∀ d, countedTicket d t0 = (d0 == d)) (k dN : Nat) (tnew : Ticket)
    (hcf : ∀ d, countedTicket d tnew = (dN == d)) (now now2 now3 now4 : Nat) :
    CounterInv (ticketUpdate
      (deptIncTicketCount (agentDecTicketCount (deptDecOpenTickets s d0 now) k now2)
        dN true now3) tid tnew now4) :=
  cinv_moveSome h hf d0 (fun d => hcnt d) dN (fun _ => { tnew with updatedAt := now4 })
    (fun d => hcf d) rfl rfl rfl

theorem cinv_create_some {s : State} (h : CounterInv s) (tN : Ticket) (d0 : Nat)
    (hcf : ∀ d, countedTicket d tN = (d0 == d)) (now now2 : Nat) :
    CounterInv (deptIncTicketCount (ticketCreate s tN now).1 d0 true now2) :=
  cinv_createSome h { tN with updatedAt := now } d0 (fun d => hcf d) rfl rfl rfl

theorem cinv_create_none {s : State} (h : CounterInv s) (tN : Ticket)
    (hcf : ∀ d, countedTicket d tN = false) (now : Nat) :
    CounterInv (ticketCreate s tN now).1 :=
  cinv_createNone h { tN with updatedAt := now } (fun d => hcf d) rfl rfl rfl

theorem cinv_softDelete_uncounted {s : State} (h : CounterInv s) {tid : Nat} (t0 : Ticket)
    (hf : findBy tid s.tickets = some t0)
    (h0 : ∀ d, countedTicket d t0 = false) (db : String) (now : Nat) :
    CounterInv (ticketSoftDelete s tid db now) := by
  refine cinv_updTicket_same h hf (fun t => { t with isDeleted := true, deletedAt := some now, deletedBy := db, updatedAt := now }) ?_ rfl rfl rfl
  intro d
  rw [h0 d]
  simp [countedTicket]

theorem cinv_softDelete_counted {s : State} (h : CounterInv s) {tid : Nat} (t0 : Ticket)
    (hf : findBy tid s.tickets = some t0) (d0 : Nat)
    (hcnt : ∀ d, countedTicket d t0 = (d0 == d)) (db : String) (now now2 : Nat) :
    CounterInv (ticketSoftDelete (deptDecOpenTickets s d0 now) tid db now2) := by
  refine cinv_decSome h hf d0 hcnt (fun t => { t with isDeleted := true, deletedAt := some now2, deletedBy := db, updatedAt := now2 }) ?_ rfl rfl rfl
  intro d
  simp [countedTicket]

theorem cinv_AssignTicket {s : State} (h : CounterInv s) {id : String}
    {req : AssignTicketRequest} {a b : String} {now : Nat} {v : State × Ticket}
    (heq : AssignTicket s id req a b now = .ok v) : CounterInv v.1 := by
  unfold AssignTicket at heq
  split at heq
  · cases heq
  · rename_i tid t hGT
    obtain ⟨hp, hg⟩ := getTicket_ok_inv hGT
    obtain ⟨hfind, hdel⟩ := ticketGetByID_inv hg
    split at heq
    · cases heq
    · rename_i aid agent hAG
      split at heq
      · cases heq
      · simp only [Except.ok.injEq] at heq
        subst heq
        split <;>
        · refine cinv_createHistory (cinv_agentIncTC (cinv_update_same2 ?_ t ?_ _ now ?_)
            _ _) _ _ _ _ _ _ _ _ _
          · first
            | exact cinv_agentDecTC h _ _
            | exact h
          · exact hfind
          · intro d
            (repeat' split) <;>
              (simp_all [countedTicket, calculateSLA_status, calculateSLA_isDeleted,
                calculateSLA_departmentID]) <;>
              rfl

theorem findBy_updBy_self {l : List (Nat × α)} {k : Nat} {a : α}
    (hf : findBy k l = some a) (f : α → α) :
    findBy k (updBy k f l) = some (f a) := by
  rw [findBy_updBy, if_pos rfl, hf]
  rfl

theorem cinv_autoAssign {x : State} (h : CounterInv x) {tid : Nat} (t : Ticket) (now : Nat)
    (hex : ∃ tC, findBy tid x.tickets = some tC ∧
      ∀ d, countedTicket d t = countedTicket d tC) :
    CounterInv (autoAssign x tid t now).1 := by
  obtain ⟨tC, hf, hsame⟩ := hex
  unfold autoAssign
  split
  · exact h
  · refine cinv_createHistory (cinv_agentIncTC (cinv_update_same2 h tC hf _ now ?_)
      _ _) _ _ _ _ _ _ _ _ _
    intro d
    exact hsame d

theorem cinv_transferChain {sK : State} (h : CounterInv sK) {tid : Nat} (t : Ticket)
    (hex : ∃ tC, findBy tid sK.tickets = some tC ∧
      ∀ d, countedTicket d t = countedTicket d tC)
    (id : String) (req : TransferTicketRequest) (u un : String) (now : Nat) :
    CounterInv (transferChain sK id req u un tid t now).1 := by
  unfold transferChain
  split
  · cases hAT : AssignTicket sK id { assigneeID := req.assigneeID } u un now with
    | ok v =>
      obtain ⟨v1, v2⟩ := v
      show CounterInv v1
      exact cinv_AssignTicket h hAT
    | error e => exact h
  · split
    · exact cinv_autoAssign h t now hex
    · exact h

theorem cinv_ChangeStatus {s : State} (h : CounterInv s) {id : String}
    {req : ChangeStatusRequest} {a b : String} {ag : Bool} {now : Nat}
    {v : State × Ticket} {tid : Nat} {t : Ticket}
    (hp : parseOID id = some tid) (hg : ticketGetByID s tid = some t)
    (hcs : counterSafe t.status req.status = true)
    (heq : ChangeStatus s id req a b ag now = .ok v) : CounterInv v.1 := by
  obtain ⟨hfind, hdel⟩ := ticketGetByID_inv hg
  simp only [ChangeStatus, getTicket_ok hp hg] at heq
  split at heq
  · cases heq
  · simp only [Except.ok.injEq] at heq
    subst heq
    cases hrs : req.status with
    | StatusResolved =>
      rw [hrs] at hcs
      simp only [counterSafe] at hcs
      rw [Bool.and_eq_true] at hcs
      obtain ⟨hs1, hs2⟩ := hcs
      rw [Bool.not_eq_true'] at hs1 hs2
      simp only [applyStatusSideEffects]
      rcases hdep : t.departmentID with _ | d0
      · simp only [hdep]
        refine cinv_createHistory (cinv_update_same2 ?_ t ?_ _ now ?_) _ _ _ _ _ _ _ _ _
        · split
          · exact cinv_agentDecTC (cinv_agentIncRes h _ _) _ _
          · exact h
        · split <;> exact hfind
        · intro d
          simp [countedTicket, hdep]
      · simp only [hdep]
        refine cinv_createHistory (cinv_update_dec ?_ t ?_ d0 ?_ _ ?_ _ _) _ _ _ _ _ _ _ _ _
        · split
          · exact cinv_agentDecTC (cinv_agentIncRes h _ _) _ _
          · exact h
        · split <;> exact hfind
        · intro d
          simp [countedTicket, hdep, hdel, hs1, hs2, some_beq_some]
        · intro d
          simp [countedTicket]
    | StatusClosed =>
      rw [hrs] at hcs
      simp only [counterSafe] at hcs
      rw [Bool.not_eq_true'] at hcs
      simp only [applyStatusSideEffects]
      by_cases hsr : t.status = StatusResolved
      · rw [if_neg (not_not_intro hsr)]
        refine cinv_createHistory (cinv_update_same2 h t hfind _ now ?_) _ _ _ _ _ _ _ _ _
        intro d
        simp [countedTicket, hsr]
      · rw [if_pos hsr]
        have hbr : (t.status == StatusResolved) = false := decide_eq_false hsr
        rcases hdep : t.departmentID with _ | d0
        · simp only [hdep]
          refine cinv_createHistory (cinv_update_same2 ?_ t ?_ _ now ?_) _ _ _ _ _ _ _ _ _
          · exact cinv_agentDecIf h _ _ _
          · split <;> exact hfind
          · intro d
            simp [countedTicket, hdep]
        · simp only [hdep]
          refine cinv_createHistory (cinv_update_dec ?_ t ?_ d0 ?_ _ ?_ _ _)
            _ _ _ _ _ _ _ _ _
          · exact cinv_agentDecIf h _ _ _
          · split <;> exact hfind
          · intro d
            simp [countedTicket, hdep, hdel, hbr, hcs, some_beq_some]
          · intro d
            simp [countedTicket]
    | StatusReopened =>
      rw [hrs] at hcs
      simp only [counterSafe] at hcs
      rw [Bool.or_eq_true] at hcs
      have h0 : ∀ d, countedTicket d t = false := by
        intro d
        rcases hcs with hA | hA
        · have := of_decide_eq_true hA
          simp [countedTicket, this]
        · have := of_decide_eq_true hA
          simp [countedTicket, this]
      simp only [applyStatusSideEffects]
      rcases hdep : t.departmentID with _ | d0
      · simp only [hdep]
        refine cinv_createHistory (cinv_update_same2 h t hfind _ now ?_) _ _ _ _ _ _ _ _ _
        intro d
        rw [h0 d]
        simp [countedTicket, hdep]
      · simp only [hdep]
        refine cinv_createHistory (cinv_update_inc h t hfind h0 d0 _ ?_ _ _)
          _ _ _ _ _ _ _ _ _
        intro d
        simp [countedTicket, hdep, hdel, some_beq_some,
          show (StatusReopened == StatusResolved) = false from rfl,
          show (StatusReopened == StatusClosed) = false from rfl]
    | StatusOpen =>
      rw [hrs] at hcs
      simp [counterSafe] at hcs
    | StatusInProgress =>
      rw [hrs] at hcs
      simp [counterSafe] at hcs
    | StatusPending =>
      rw [hrs] at hcs
      simp [counterSafe] at hcs
    | StatusOnHold =>
      rw [hrs] at hcs
      simp [counterSafe] at hcs
    | StatusCancelled =>
      rw [hrs] at hcs
      simp [counterSafe] at hcs
    | StatusEscalated =>
      rw [hrs] at hcs
      simp [counterSafe] at hcs

theorem cinv_DeleteTicket {s : State} (h : CounterInv s) {id : String} {a : String}
    {now : Nat} {s' : State} (heq : DeleteTicket s id a now = .ok s') : CounterInv s' := by
  unfold DeleteTicket at heq
  split at heq
  · cases heq
  · rename_i tid t hGT
    obtain ⟨hp, hg⟩ := getTicket_ok_inv hGT
    obtain ⟨hfind, hdel⟩ := ticketGetByID_inv hg
    simp only [Except.ok.injEq] at heq
    subst heq
    rcases hdep : t.departmentID with _ | d0
    · simp only [hdep]
      refine cinv_softDelete_uncounted ?_ t ?_ ?_ _ _
      · exact cinv_agentDecIf h _ _ _
      · split <;> exact hfind
      · intro d
        simp [countedTicket, hdep]
    · simp only [hdep]
      split
      · rename_i hst
        refine cinv_softDelete_counted ?_ t ?_ d0 ?_ _ _ _
        · exact cinv_agentDecIf h _ _ _
        · split <;> exact hfind
        · have hb1 : (t.status == StatusClosed) = false := decide_eq_false hst.1
          have hb2 : (t.status == StatusResolved) = false := decide_eq_false hst.2
          intro d
          simp [countedTicket, hdep, hdel, hb1, hb2, some_beq_some]
      · rename_i hst
        refine cinv_softDelete_uncounted ?_ t ?_ ?_ _ _
        · exact cinv_agentDecIf h _ _ _
        · split <;> exact hfind
        · intro d
          rcases Decidable.not_and_iff_or_not.mp hst with hc | hc
          · have := Decidable.not_not.mp hc
            simp [countedTicket, this]
          · have := Decidable.not_not.mp hc
            simp [countedTicket, this]

theorem cinv_TransferTicket {s : State} (h : CounterInv s) {id : String}
    {req : TransferTicketRequest} {a b : String} {now : Nat} {v : State × Ticket}
    {tid : Nat} {t : Ticket}
    (hp : parseOID id = some tid) (hg : ticketGetByID s tid = some t)
    (hsafe : (!(t.status == StatusResolved) && !(t.status == StatusClosed)) = true)
    (heq : TransferTicket s id req a b now = .ok v) : CounterInv v.1 := by
  obtain ⟨hfind, hdel⟩ := ticketGetByID_inv hg
  rw [Bool.and_eq_true] at hsafe
  obtain ⟨hs1, hs2⟩ := hsafe
  rw [Bool.not_eq_true'] at hs1 hs2
  simp only [TransferTicket, getTicket_ok hp hg] at heq
  split at heq
  · cases heq
  · rename_i dN hpd
    split at heq
    · cases heq
    · rename_i dept hdg
      simp only [Except.ok.injEq] at heq
      subst heq
      rcases hdep : t.departmentID with _ | d0
      · simp only [hdep]
        split <;>
        · refine cinv_transferChain ?_ _ ?_ _ _ _ _ _
          · refine cinv_createHistory (cinv_update_inc ?_ t ?_ ?_ dN _ ?_ _ _)
              _ _ _ _ _ _ _ _ _
            · first
              | exact cinv_agentDecTC h _ _
              | exact h
            · exact hfind
            · intro d
              simp [countedTicket, hdep]
            · intro d
              simp [countedTicket, hdel, hs1, hs2, some_beq_some]
          · dsimp only [createHistory, historyAdd, ticketUpdate, deptIncTicketCount,
              agentDecTicketCount, deptDecOpenTickets]
            exact ⟨_, findBy_updBy_self hfind _, fun d => rfl⟩
      · simp only [hdep]
        split
        · refine cinv_transferChain ?_ _ ?_ _ _ _ _ _
          · refine cinv_createHistory
              (cinv_update_move_agent h t hfind d0 ?_ _ _ _ ?_ _ _ _ _) _ _ _ _ _ _ _ _ _
            · intro d
              simp [countedTicket, hdep, hdel, hs1, hs2, some_beq_some]
            · intro d
              simp [countedTicket, hdel, hs1, hs2, some_beq_some]
          · dsimp only [createHistory, historyAdd, ticketUpdate, deptIncTicketCount,
              agentDecTicketCount, deptDecOpenTickets]
            exact ⟨_, findBy_updBy_self hfind _, fun d => rfl⟩
        · refine cinv_transferChain ?_ _ ?_ _ _ _ _ _
          · refine cinv_createHistory
              (cinv_update_move h t hfind d0 ?_ _ _ ?_ _ _ _) _ _ _ _ _ _ _ _ _
            · intro d
              simp [countedTicket, hdep, hdel, hs1, hs2, some_beq_some]
            · intro d
              simp [countedTicket, hdel, hs1, hs2, some_beq_some]
          · dsimp only [createHistory, historyAdd, ticketUpdate, deptIncTicketCount,
              deptDecOpenTickets]
            exact ⟨_, findBy_updBy_self hfind _, fun d => rfl⟩

theorem cinv_CreateTicket {s : State} (h : CounterInv s) {req : CreateTicketRequest}
    {a b c : String} {now : Nat} {v : State × Nat × Ticket}
    (heq : CreateTicket s req a b c now = .ok v) : CounterInv v.1 := by
  simp only [CreateTicket] at heq
  split at heq
  · cases heq
  · split at heq
    · cases heq
    · split at heq
      · -- auto-assignment branch
        split at heq
        · rename_i d0 heqd
          have hcf : ∀ d,
              countedTicket d (buildNewTicket (getNextTicketNumber s req.tenantID).1 req
                a b c (getNextTicketNumber s req.tenantID).2 now) = (d0 == d) := by
            intro d
            simp [countedTicket, heqd, buildNewTicket_status, buildNewTicket_isDeleted,
              some_beq_some, show (StatusOpen == StatusResolved) = false from rfl,
              show (StatusOpen == StatusClosed) = false from rfl]
          simp only [Except.ok.injEq] at heq
          subst heq
          refine cinv_autoAssign ?_ _ _ ?_
          · exact cinv_createHistory (cinv_create_some (cinv_getNext1 h _) _ d0 hcf _ _)
              _ _ _ _ _ _ _ _ _
          · dsimp only [createHistory, historyAdd, deptIncTicketCount, ticketCreate,
              getNextTicketNumber]
            exact ⟨_, findBy_append_fresh _ (fun p hp => Nat.ne_of_lt (h.1.2 p hp)),
              fun d => rfl⟩
        · rename_i heqd
          have hcf : ∀ d,
              countedTicket d (buildNewTicket (getNextTicketNumber s req.tenantID).1 req
                a b c (getNextTicketNumber s req.tenantID).2 now) = false := by
            intro d
            simp [countedTicket, heqd]
          simp only [Except.ok.injEq] at heq
          subst heq
          refine cinv_autoAssign ?_ _ _ ?_
          · exact cinv_createHistory (cinv_create_none (cinv_getNext1 h _) _ hcf _)
              _ _ _ _ _ _ _ _ _
          · dsimp only [createHistory, historyAdd, deptIncTicketCount, ticketCreate,
              getNextTicketNumber]
            exact ⟨_, findBy_append_fresh _ (fun p hp => Nat.ne_of_lt (h.1.2 p hp)),
              fun d => rfl⟩
      · -- plain branch
        split at heq
        · rename_i d0 heqd
          have hcf : ∀ d,
              countedTicket d (buildNewTicket (getNextTicketNumber s req.tenantID).1 req
                a b c (getNextTicketNumber s req.tenantID).2 now) = (d0 == d) := by
            intro d
            simp [countedTicket, heqd, buildNewTicket_status, buildNewTicket_isDeleted,
              some_beq_some, show (StatusOpen == StatusResolved) = false from rfl,
              show (StatusOpen == StatusClosed) = false from rfl]
          simp only [Except.ok.injEq] at heq
          subst heq
          exact cinv_createHistory (cinv_create_some (cinv_getNext1 h _) _ d0 hcf _ _)
            _ _ _ _ _ _ _ _ _
        · rename_i heqd
          have hcf : ∀ d,
              countedTicket d (buildNewTicket (getNextTicketNumber s req.tenantID).1 req
                a b c (getNextTicketNumber s req.tenantID).2 now) = false := by
            intro d
            simp [countedTicket, heqd]
          simp only [Except.ok.injEq] at heq
          subst heq
          exact cinv_createHistory (cinv_create_none (cinv_getNext1 h _) _ hcf _)
            _ _ _ _ _ _ _ _ _

theorem cinv_runOp {s : State} (h : CounterInv s) {op : Op} (hS : SafeOp s op = true)
    (now : Nat) : CounterInv (runOp s op now) := by
  cases op with
  | create req a b c =>
    simp only [runOp]
    split
    · rename_i heq
      exact cinv_CreateTicket h heq
    · exact h
  | update id req a b ag => simp [SafeOp] at hS
  | changeStatus id req a b ag =>
    simp only [runOp]
    split
    · rename_i heq
      cases hop : parseOID id with
      | none =>
        simp only [ChangeStatus, GetTicket, hop] at heq
        cases heq
      | some tid =>
        cases hgt : ticketGetByID s tid with
        | none =>
          simp only [ChangeStatus, GetTicket, hop, hgt] at heq
          cases heq
        | some t =>
          simp only [SafeOp, hop, hgt] at hS
          exact cinv_ChangeStatus h hop hgt hS heq
    · exact h
  | assign id req a b =>
    simp only [runOp]
    split
    · rename_i heq
      exact cinv_AssignTicket h heq
    · exact h
  | transfer id req a b =>
    simp only [runOp]
    split
    · rename_i heq
      cases hop : parseOID id with
      | none =>
        simp only [TransferTicket, GetTicket, hop] at heq
        cases heq
      | some tid =>
        cases hgt : ticketGetByID s tid with
        | none =>
          simp only [TransferTicket, GetTicket, hop, hgt] at heq
          cases heq
        | some t =>
          simp only [SafeOp, hop, hgt] at hS
          exact cinv_TransferTicket h hop hgt hS heq
    · exact h
  | addReply id req a b c st => simp [SafeOp] at hS
  | rate id req a => simp [SafeOp] at hS
  | delete id a =>
    simp only [runOp]
    split
    · rename_i heq
      exact cinv_DeleteTicket h heq
    · exact h
  | bulkAssign tn ids ag cb cbn => simp [SafeOp] at hS
  | bulkStatus tn ids st cb cbn => simp [SafeOp] at hS
  | bulkPriority tn ids pr cb cbn => simp [SafeOp] at hS
  | bulkTransfer tn ids d cb cbn => simp [SafeOp] at hS
  | bulkDelete tn ids => simp [SafeOp] at hS

/-- Claim C2 amended: after a sequence of create/assign/change-status/
transfer/delete operations in which every resolve, close or reopen is a
counter-safe status transition and every transfer targets a ticket that
is neither resolved nor closed, every department's `openTickets`
counter still equals the number of its attached tickets that are not
soft-deleted and neither resolved nor closed.  Without that proviso the
invariant fails (see the companion counterexample). -/
theorem counter_conservation (l : List (Op × Nat)) :
    ∀ s : State, CounterInv s → SafeChain s l → CounterInv (runOps s l) := by
  induction l with
  | nil =>
    intro s h _
    exact h
  | cons p rest ih =>
    intro s h hchain
    obtain ⟨op, now⟩ := p
    cases hchain with
    | cons _ _ _ _ hop hrest =>
      exact ih (runOp s op now) (cinv_runOp h hop now) hrest

/-- Claim C2 counterexample: transferring a resolved ticket is one of
the claim's operations, yet `TransferTicket` unconditionally increments
the destination department's open counter while the resolved ticket
stays uncounted, so a counter-consistent store is driven out of
conservation by a single transfer. -/
theorem department_counter_drifts :
    CounterInv fixMoveState ∧
    ¬ DeptCountInv (runOps fixMoveState
        [(Op.transfer oid1 { departmentID := toHex24 11 } "u" "U", 5)]) := by
  constructor
  · refine ⟨⟨by decide, by decide⟩, ?_⟩
    intro q hq
    rcases List.mem_cons.mp hq with rfl | hq2
    · decide
    · rcases List.mem_singleton.mp hq2 with rfl
      decide
  · intro hD
    have hx : ∃ q ∈ (runOps fixMoveState
        [(Op.transfer oid1 { departmentID := toHex24 11 } "u" "U", 5)]).departments,
        ¬ (q.2.openTickets = openCount (runOps fixMoveState
          [(Op.transfer oid1 { departmentID := toHex24 11 } "u" "U", 5)]) q.1) := by
      decide
    obtain ⟨q, hqm, hqn⟩ := hx
    exact hqn (hD q hqm)

theorem counter_conservation_witness :
    CounterInv (runOps fixState
      [(Op.changeStatus oid1 { status := StatusResolved } "ag" "AG" true, 5),
       (Op.changeStatus oid1 { status := StatusReopened } "ag" "AG" true, 6),
       (Op.delete oid1 "boss2", 7)]) :=
  counter_conservation _ fixState
    (by
      refine ⟨⟨by decide, by decide⟩, ?_⟩
      intro q hq
      rcases List.mem_singleton.mp hq with rfl
      decide)
    (SafeChain.cons _ _ _ _ (by decide)
      (SafeChain.cons _ _ _ _ (by decide)
        (SafeChain.cons _ _ _ _ (by decide) (SafeChain.nil _))))

end Ticketing
